import Mathlib

/-!
# Verification of the YKC protocol frame decoder

A shallow embedding of the YKC (云快充) EV-charging-pile protocol decoder:

* src/scripts/parse_ykc.py      (ParserContext, YKCProtocolParser)
* src/scripts/frame_parsers.py  (the per-frame-type body decoders)
* src/scripts/parser_factory.py (FrameParserFactory)

Bytes are modelled as natural numbers below 256 held in a List Nat; Python
byte strings are never mutated, only sliced, and Python slices clamp to the
buffer whereas single-byte indexing body[i] raises IndexError when i is out
of range. The embedding mirrors this: slices are total, getByte is fallible.

Diagnostics (ParserContext.errors and ParserContext.warnings) are lists of
message strings in the source; each distinct f-string template is modelled
as one constructor of a tagged diagnostic type carrying the interpolated
values, so that the theorems can classify diagnostics by their code site.
Messages produced inside body decoders (EnvDiag vs BodyDiag below) come from
disjoint code sites and so are modelled as distinct types.

Floating point scaled values (raw / divisor in Python) are modelled as exact
rationals; every numeric claim checked here concerns values at which the
Python float arithmetic is exact.

The checksum function lives in crc16.py, which is not part of the sources;
it is modelled from the spec (see calculate_crc16 below).
-/

/-- Uppercase hexadecimal digit for a value below 16. -/
def hexDigitChar (n : Nat) : Char :=
  if n < 10 then Char.ofNat (48 + n) else Char.ofNat (65 + (n - 10))

/-- Two-digit uppercase hex rendering of one byte, the Python format 02X. -/
def hex2 (b : Nat) : String :=
  String.mk [hexDigitChar (b / 16 % 16), hexDigitChar (b % 16)]

/-- Python format 0x..02X used for one-byte fields. -/
def hex0x2 (b : Nat) : String := "0x" ++ hex2 b

/-- Four-digit uppercase hex, the Python format 04X. -/
def hex4 (n : Nat) : String :=
  String.mk ((List.range 4).map (fun i => hexDigitChar (n / 16 ^ (3 - i) % 16)))

/-- Python format 0x..04X used for the 16-bit checksum values. -/
def hex0x4 (n : Nat) : String := "0x" ++ hex4 n

/-- Sixteen-digit uppercase hex, the Python format 016X used for card numbers. -/
def hex16 (n : Nat) : String :=
  String.mk ((List.range 16).map (fun i => hexDigitChar (n / 16 ^ (15 - i) % 16)))

/-- bytes.hex().upper() on a byte list. -/
def bytesHexUpper (l : List Nat) : String := String.join (l.map hex2)

/-- Zero-padded decimal rendering (Python format 02d / 03d / 04d). -/
def padNat (width n : Nat) : String :=
  let s := toString n
  let pad := width - s.length
  String.mk (List.replicate pad (Char.ofNat 48)) ++ s

/-- Python int.from_bytes(l, byteorder=little). -/
def leNat : List Nat → Nat
  | [] => 0
  | b :: rest => b + 256 * leNat rest

/-- Python int.from_bytes(l, byteorder=big). -/
def beNat (l : List Nat) : Nat := l.foldl (fun acc b => 256 * acc + b) 0

/-- The Python slice l[i:j] (total: clamps to the available bytes). -/
def pySlice (l : List Nat) (i j : Nat) : List Nat := (l.drop i).take (j - i)

/-- Python bytes.rstrip applied with a zero byte. -/
def rstripZero (l : List Nat) : List Nat :=
  (l.reverse.dropWhile (fun b => b == 0)).reverse

/-- Value of one hexadecimal character, if any (bytes.fromhex digit). -/
def hexCharVal (c : Char) : Option Nat :=
  if 48 ≤ c.toNat ∧ c.toNat ≤ 57 then some (c.toNat - 48)
  else if 65 ≤ c.toNat ∧ c.toNat ≤ 70 then some (c.toNat - 55)
  else if 97 ≤ c.toNat ∧ c.toNat ≤ 102 then some (c.toNat - 87)
  else none

/-- bytes.fromhex on an even-length cleaned string; none models ValueError. -/
def hexDecode : List Char → Option (List Nat)
  | [] => some []
  | [_] => none
  | c1 :: c2 :: rest =>
    match hexCharVal c1, hexCharVal c2, hexDecode rest with
    | some h, some lo, some bytes => some ((16 * h + lo) :: bytes)
    | _, _, _ => none

/-- Python str.strip target set (whitespace characters). -/
def isPyWhitespace (c : Char) : Bool :=
  c == ' ' || c == '\t' || c == '\n' || c == '\r' || c == '\x0b' || c == '\x0c'

/-- Python str.strip(): drop leading and trailing whitespace. -/
def pyStrip (l : List Char) : List Char :=
  ((l.dropWhile isPyWhitespace).reverse.dropWhile isPyWhitespace).reverse

/-- Modelled from the spec: the checksum engine of crc16.py, which is imported
by parse_ykc.py but absent from the sources. Per spec section 4.2 it is a
CRC-16 over the given byte range computed with a fixed polynomial/table
algorithm; modelled as the standard reflected CRC-16 (initial value 0xFFFF,
polynomial 0xA001) processing the bytes in order. -/
def crc16Shift (crc : Nat) : Nat :=
  if crc % 2 = 1 then (crc / 2) ^^^ 0xA001 else crc / 2

/-- Modelled from the spec: one input byte of the CRC-16 computation. -/
def crc16Byte (crc b : Nat) : Nat := crc16Shift^[8] (crc ^^^ b)

/-- Modelled from the spec: calculate_crc16 of the missing crc16.py. -/
def calculate_crc16 (data : List Nat) : Nat := data.foldl crc16Byte 0xFFFF

/-- One diagnostic recorded by the envelope parser in parse_ykc.py.
Each constructor corresponds to one message template at one code site:

* badStart          起始标志错误 (error)
* lengthMismatch    报文长度不匹配 (error)
* shortSeq          报文过短,无法读取序列号 (error)
* shortEncryptFlag  报文过短,无法读取加密标志 (error)
* shortFrameType    报文过短,无法读取帧类型 (error)
* badDataLength     数据长度字段错误 (error)
* shortBody         报文长度不足,无法读取完整消息体 (error)
* shortCrc          报文过短,无法读取CRC16校验码 (error)
* bodyParseFailed   消息体解析失败 (error raised by a body decoder, caught)
* unknownFrameType  未知的帧类型 (warning)
* crcMismatch       CRC16校验失败 (warning)
-/
inductive EnvDiag where
  | badStart (actual : Nat)
  | lengthMismatch (expected actual : Nat)
  | shortSeq
  | shortEncryptFlag
  | shortFrameType
  | badDataLength (dataLen : Nat)
  | shortBody (need got : Nat)
  | shortCrc
  | bodyParseFailed
  | unknownFrameType (code : Nat)
  | crcMismatch (received calculated : Nat)
deriving DecidableEq, Repr

/-- One diagnostic recorded inside a body decoder (frame_parsers.py) or a
ParserContext helper. Constructor / message template correspondence:

* bodyTooShort         XXXParser 消息体长度不足 (error, validate_length)
* cardDataInsufficient 离线卡数据长度不足 (error, the offline card decoders)
* nonAsciiChars        ASCII字段包含非ASCII字符 (warning, ascii_to_str)
* asciiDecodeFailed    ASCII解码失败 (warning, ascii_to_str)
* qrPrefixIncomplete   二维码前缀数据不完整 (warning, QRCodePrefixSetParser)
* qrPrefixTooLong      二维码前缀数据长度超出预期 (warning)
* qrResponseNote       注意: 返回成功不代表二维码一定设置成功 (warning)

parse_cp56time2a has a warning template CP56Time2a解析失败 inside a
try/except whose body cannot raise for byte input, so it has no constructor.
-/
inductive BodyDiag where
  | bodyTooShort (decoderName : String) (need got : Nat)
  | cardDataInsufficient (need got : Nat)
  | nonAsciiChars (bytesHex : String)
  | asciiDecodeFailed (bytesHex : String)
  | qrPrefixIncomplete (expected actual : Nat)
  | qrPrefixTooLong (expected actual : Nat)
  | qrResponseNote
deriving DecidableEq, Repr

/-- A diagnostic in the per-decode ParserContext lists, tagged by whether the
envelope parser or a body decoder recorded it. -/
inductive Diag where
  | env (d : EnvDiag)
  | body (d : BodyDiag)
deriving DecidableEq, Repr

/-- A decoded field value (the values of the Python result dictionaries).
Scaled physical quantities are exact rationals, see the file docstring. -/
inductive Val where
  | str (s : String)
  | nat (n : Nat)
  | int (i : Int)
  | rat (q : ℚ)
  | bool (b : Bool)
  | strList (l : List String)
  | record (l : List (String × Val))
  | recordList (l : List (List (String × Val)))

/-- A body decoder result: the Python field dictionary as an ordered
association list. -/
abbrev BodyData := List (String × Val)

/-- The effect of running code that owns a ParserContext: it may append error
diagnostics, append warning diagnostics, and either produce a value or raise
(val = none models an uncaught Python exception such as IndexError; the
appends made before the raise are kept, as the shared context object keeps
them in the source). The context is never read by body decoders, which this
type makes structural. -/
structure PM (α : Type) where
  errs : List BodyDiag
  warns : List BodyDiag
  val : Option α

namespace PM

def pure (a : α) : PM α := ⟨[], [], some a⟩

def bind (x : PM α) (f : α → PM β) : PM β :=
  match x.val with
  | none => ⟨x.errs, x.warns, none⟩
  | some a =>
    let y := f a
    ⟨x.errs ++ y.errs, x.warns ++ y.warns, y.val⟩

instance : Monad PM where
  pure := PM.pure
  bind := PM.bind

/-- Python body[i]: the byte at i, raising IndexError when out of range. -/
def getByte (l : List Nat) (i : Nat) : PM Nat :=
  if i < l.length then PM.pure (l.getD i 0) else ⟨[], [], none⟩

/-- context.errors.append(...) inside a body decoder. -/
def err (d : BodyDiag) : PM Unit := ⟨[d], [], some ()⟩

/-- context.warnings.append(...) inside a body decoder. -/
def warn (d : BodyDiag) : PM Unit := ⟨[], [d], some ()⟩

@[simp] theorem bind_eq (x : PM α) (f : α → PM β) :
    x >>= f = PM.bind x f := rfl

@[simp] theorem pure_eq (a : α) : (Pure.pure a : PM α) = PM.pure a := rfl

@[simp] theorem bind_pure_left (a : α) (f : α → PM β) :
    PM.bind (PM.pure a) f = f a := by
  simp [PM.bind, PM.pure]

@[simp] theorem bind_mk_some (e w : List BodyDiag) (a : α) (f : α → PM β) :
    PM.bind ⟨e, w, some a⟩ f = ⟨e ++ (f a).errs, w ++ (f a).warns, (f a).val⟩ := rfl

@[simp] theorem bind_mk_none (e w : List BodyDiag) (f : α → PM β) :
    PM.bind (⟨e, w, none⟩ : PM α) f = ⟨e, w, none⟩ := rfl

@[simp] theorem getByte_lt (l : List Nat) (i : Nat) (h : i < l.length) :
    getByte l i = PM.pure (l.getD i 0) := by
  simp [getByte, h]

end PM

/-- Lowercase hexadecimal digit for a value below 16. -/
def hexDigitCharLower (n : Nat) : Char :=
  if n < 10 then Char.ofNat (48 + n) else Char.ofNat (97 + (n - 10))

/-- bytes.hex() (lowercase), used in the ascii_to_str warning messages. -/
def bytesHexLower (l : List Nat) : String :=
  String.join (l.map (fun b =>
    String.mk [hexDigitCharLower (b / 16 % 16), hexDigitCharLower (b % 16)]))

/-- Python dict.get(key, default) on a small literal code table. -/
def pyGet (l : List (Nat × String)) (k : Nat) (dflt : String) : String :=
  (l.lookup k).getD dflt

/-- The recurring Python fallback f-string 未知(code). -/
def unknownCode (c : Nat) : String := "未知(" ++ toString c ++ ")"

/-- ParserContext.bcd_to_str: each byte rendered as two uppercase hex digits
and joined (the try/except cannot trigger for byte input). -/
def bcd_to_str (l : List Nat) : String := String.join (l.map hex2)

/-- ParserContext.ascii_to_str: strip trailing zero bytes and decode as
ASCII; a byte of 128 or more in the stripped text raises UnicodeDecodeError,
caught to a warning with the bytes returned as uppercase hex. When decoding
succeeds, a warning is recorded unless every byte below 128 of the original
slice is printable (32..126) or zero. -/
def ascii_to_str (l : List Nat) : PM String := do
  let stripped := rstripZero l
  if stripped.all (fun b => decide (b < 128)) then
    if (l.filter (fun b => decide (b < 128))).all
        (fun b => (decide (32 ≤ b) && decide (b < 127)) || b == 0) then
      return String.mk (stripped.map Char.ofNat)
    else
      PM.warn (.nonAsciiChars (bytesHexLower l))
      return String.mk (stripped.map Char.ofNat)
  else
    PM.warn (.asciiDecodeFailed (bytesHexLower l))
    return bytesHexUpper l

/-- ParserContext.parse_cp56time2a: decode the 7-byte packed timestamp.
Fewer than 7 bytes gives the 无效时间 marker; otherwise milliseconds are the
first two bytes little-endian, and minute / hour / day / month / year-offset
are the masked low bits of bytes 2..6 (the try/except cannot trigger for
byte input). -/
def parse_cp56time2a (t : List Nat) : String :=
  if t.length < 7 then "无效时间"
  else
    let millisec := leNat (pySlice t 0 2)
    let minute := t.getD 2 0 &&& 0x3F
    let hour := t.getD 3 0 &&& 0x1F
    let day := t.getD 4 0 &&& 0x1F
    let month := t.getD 5 0 &&& 0x0F
    let year := 2000 + (t.getD 6 0 &&& 0x7F)
    let seconds := millisec / 1000
    let millis := millisec % 1000
    padNat 4 year ++ "-" ++ padNat 2 month ++ "-" ++ padNat 2 day ++ " " ++
      padNat 2 hour ++ ":" ++ padNat 2 minute ++ ":" ++ padNat 2 seconds ++
      "." ++ padNat 3 millis

/-- The hardware fault bit labels of ParserContext.parse_fault_bits. -/
def faultNames : List String :=
  ["急停按钮动作", "无可用整流模块", "出风口温度过高", "交流防雷故障",
   "DC20通信中断", "FC08通信中断", "电度表通信中断", "读卡器通信中断",
   "RC10通信中断", "风扇调速板故障", "直流熔断器故障", "高压接触器故障",
   "门打开"]

/-- ParserContext.parse_fault_bits: the labels of the set bits, or 无故障. -/
def parse_fault_bits (fault : Nat) : List String :=
  let faults := faultNames.enum.filterMap
    (fun p => if fault &&& (1 <<< p.1) ≠ 0 then some p.2 else none)
  if faults.isEmpty then ["无故障"] else faults

/-- FrameParser.validate_length: body shorter than the declared minimum
records one error naming the decoder class and yields false. -/
def validate_length (decoderName : String) (minLen : Nat) (body : List Nat) :
    PM Bool :=
  if body.length < minLen then
    ⟨[.bodyTooShort decoderName minLen body.length], [], some false⟩
  else PM.pure true

/-- 充电桩登录认证 (0x01). -/
def LoginParser.expected_min_length : Nat := 28

/-- LoginParser.parse of frame_parsers.py. -/
def LoginParser.parse (body : List Nat) : PM BodyData := do
  let ok ← validate_length "LoginParser" LoginParser.expected_min_length body
  if !ok then return []
  let pile_code := bcd_to_str (pySlice body 0 7)
  let pile_type ← PM.getByte body 7
  let gun_count ← PM.getByte body 8
  let protocol_version ← PM.getByte body 9
  let program_version ← ascii_to_str (pySlice body 10 18)
  let network_type ← PM.getByte body 18
  let sim_card := bcd_to_str (pySlice body 19 29)
  let oper ← PM.getByte body 29
  return [("pile_code", .str pile_code),
    ("pile_type", .str (if pile_type = 0 then "直流桩" else "交流桩")),
    ("pile_type_code", .nat pile_type),
    ("gun_count", .nat gun_count),
    ("protocol_version", .str ("v" ++ toString (protocol_version / 10) ++ "." ++
      toString (protocol_version % 10))),
    ("program_version", .str program_version),
    ("network_type", .str (pyGet [(0, "SIM卡"), (1, "LAN"), (2, "WAN"), (3, "其他")]
      network_type (unknownCode network_type))),
    ("sim_card", .str sim_card),
    ("operator", .str (pyGet [(0, "移动"), (2, "电信"), (3, "联通"), (4, "其他")]
      oper (unknownCode oper)))]

/-- 登录认证应答 (0x02). -/
def LoginResponseParser.expected_min_length : Nat := 8

/-- LoginResponseParser.parse of frame_parsers.py. -/
def LoginResponseParser.parse (body : List Nat) : PM BodyData := do
  let ok ← validate_length "LoginResponseParser" LoginResponseParser.expected_min_length body
  if !ok then return []
  let pile_code := bcd_to_str (pySlice body 0 7)
  let login_result ← PM.getByte body 7
  return [("pile_code", .str pile_code),
    ("login_result", .str (if login_result = 0 then "登录成功" else "登录失败")),
    ("login_result_code", .nat login_result)]

/-- 读取实时监测数据 (0x12). -/
def ReadRealtimeParser.expected_min_length : Nat := 8

/-- ReadRealtimeParser.parse of frame_parsers.py. -/
def ReadRealtimeParser.parse (body : List Nat) : PM BodyData := do
  let ok ← validate_length "ReadRealtimeParser" ReadRealtimeParser.expected_min_length body
  if !ok then return []
  let pile_code := bcd_to_str (pySlice body 0 7)
  let gun ← PM.getByte body 7
  return [("pile_code", .str pile_code), ("gun_number", .str (hex2 gun))]

/-- 上传实时监测数据 (0x13). -/
def RealtimeDataParser.expected_min_length : Nat := 58

/-- RealtimeDataParser.parse of frame_parsers.py. -/
def RealtimeDataParser.parse (body : List Nat) : PM BodyData := do
  let ok ← validate_length "RealtimeDataParser" RealtimeDataParser.expected_min_length body
  if !ok then return []
  let transaction_id := bcd_to_str (pySlice body 0 16)
  let pile_code := bcd_to_str (pySlice body 16 23)
  let gun_number ← PM.getByte body 23
  let status ← PM.getByte body 24
  let gun_returned ← PM.getByte body 25
  let gun_plugged ← PM.getByte body 26
  let voltage := leNat (pySlice body 27 29)
  let current := leNat (pySlice body 29 31)
  let cable_temp ← PM.getByte body 31
  let cable_code := bytesHexUpper (pySlice body 32 40)
  let soc ← PM.getByte body 40
  let battery_max ← PM.getByte body 41
  let charge_time := leNat (pySlice body 42 44)
  let remain_time := leNat (pySlice body 44 46)
  let energy := leNat (pySlice body 46 50)
  let energy_loss := leNat (pySlice body 50 54)
  let amount := leNat (pySlice body 54 58)
  let fault := leNat (pySlice body 58 60)
  return [("transaction_id", .str transaction_id),
    ("pile_code", .str pile_code),
    ("gun_number", .str (hex2 gun_number)),
    ("status", .str (pyGet [(0, "离线"), (1, "故障"), (2, "空闲"), (3, "充电")]
      status (unknownCode status))),
    ("status_code", .nat status),
    ("gun_returned", .str (pyGet [(0, "否"), (1, "是"), (2, "未知")] gun_returned "未知")),
    ("gun_plugged", .str (if gun_plugged = 1 then "是" else "否")),
    ("output_voltage", .rat ((voltage : ℚ) / 10)),
    ("output_current", .rat ((current : ℚ) / 10)),
    ("cable_temperature", .int ((cable_temp : Int) - 50)),
    ("cable_code", .str cable_code),
    ("soc", .nat soc),
    ("battery_max_temperature", .int ((battery_max : Int) - 50)),
    ("total_charge_time_minutes", .nat charge_time),
    ("remaining_time_minutes", .nat remain_time),
    ("charged_energy_kwh", .rat ((energy : ℚ) / 10000)),
    ("charged_energy_with_loss_kwh", .rat ((energy_loss : ℚ) / 10000)),
    ("charged_amount_yuan", .rat ((amount : ℚ) / 10000)),
    ("hardware_fault_code", .str (hex0x4 fault)),
    ("hardware_faults", .strList (parse_fault_bits fault))]

/-- 充电桩心跳包 (0x03). -/
def HeartbeatParser.expected_min_length : Nat := 7

/-- HeartbeatParser.parse of frame_parsers.py. -/
def HeartbeatParser.parse (body : List Nat) : PM BodyData := do
  let ok ← validate_length "HeartbeatParser" HeartbeatParser.expected_min_length body
  if !ok then return []
  return [("pile_code", .str (bcd_to_str (pySlice body 0 7)))]

/-- 心跳包应答 (0x04). -/
def HeartbeatResponseParser.expected_min_length : Nat := 7

/-- HeartbeatResponseParser.parse of frame_parsers.py. -/
def HeartbeatResponseParser.parse (body : List Nat) : PM BodyData := do
  let ok ← validate_length "HeartbeatResponseParser" HeartbeatResponseParser.expected_min_length body
  if !ok then return []
  return [("pile_code", .str (bcd_to_str (pySlice body 0 7)))]

/-- 默认解析器: raw hex of the body plus the not-yet-implemented marker. -/
def DefaultParser.expected_min_length : Nat := 0

/-- DefaultParser.parse of frame_parsers.py. -/
def DefaultParser.parse (body : List Nat) : PM BodyData :=
  PM.pure [("raw", .str (bytesHexUpper body)),
    ("note", .str "该帧类型暂未实现详细解析")]

/-- 充电握手 (0x15). -/
def ChargingHandshakeParser.expected_min_length : Nat := 65

/-- ChargingHandshakeParser.parse of frame_parsers.py. -/
def ChargingHandshakeParser.parse (body : List Nat) : PM BodyData := do
  let ok ← validate_length "ChargingHandshakeParser" ChargingHandshakeParser.expected_min_length body
  if !ok then return []
  let transaction_id := bcd_to_str (pySlice body 0 16)
  let pile_code := bcd_to_str (pySlice body 16 23)
  let gun_number := bcd_to_str (pySlice body 23 24)
  let version_bytes := pySlice body 24 27
  let vb2 ← PM.getByte version_bytes 2
  let battery_type ← PM.getByte body 27
  let capacity := leNat (pySlice body 28 30)
  let voltage := leNat (pySlice body 30 32)
  let manufacturer ← ascii_to_str (pySlice body 32 36)
  let serial := bytesHexUpper (pySlice body 36 40)
  let y ← PM.getByte body 40
  let mo ← PM.getByte body 41
  let d ← PM.getByte body 42
  let charge_times := leNat (pySlice body 43 46)
  let ownership ← PM.getByte body 46
  let vin ← ascii_to_str (pySlice body 48 65)
  let ver_bytes := pySlice body 65 73
  return [("transaction_id", .str transaction_id),
    ("pile_code", .str pile_code),
    ("gun_number", .str gun_number),
    ("bms_protocol_version", .str ("V" ++ toString vb2 ++ "." ++
      toString (leNat (pySlice version_bytes 0 2)))),
    ("bms_battery_type", .str (pyGet [(0x01, "铅酸电池"), (0x02, "氢电池"),
      (0x03, "磷酸铁锂电池"), (0x04, "锰酸锂电池"), (0x05, "钴酸锂电池"),
      (0x06, "三元材料电池"), (0x07, "聚合物锂离子电池"), (0x08, "钛酸锂电池"),
      (0xFF, "其他")] battery_type (unknownCode battery_type))),
    ("bms_battery_type_code", .nat battery_type),
    ("bms_rated_capacity_ah", .rat ((capacity : ℚ) / 10)),
    ("bms_rated_voltage_v", .rat ((voltage : ℚ) / 10)),
    ("bms_manufacturer", .str manufacturer),
    ("bms_battery_serial", .str serial),
    ("bms_production_date", .str (padNat 4 (y + 1985) ++ "-" ++ padNat 2 mo ++
      "-" ++ padNat 2 d)),
    ("bms_charge_times", .nat charge_times),
    ("bms_ownership", .str (if ownership = 0 then "租赁" else "车自有")),
    ("bms_ownership_code", .nat ownership),
    ("bms_vin", .str vin),
    ("bms_software_version", .str (bytesHexUpper ver_bytes))]

/-- 交易记录 (0x3B). -/
def TransactionRecordParser.expected_min_length : Nat := 132

/-- TransactionRecordParser.parse of frame_parsers.py. The four pricing
periods are written out with their explicit offsets 38, 54, 70, 86 (the
source iterates, adding 16 per period). -/
def TransactionRecordParser.parse (body : List Nat) : PM BodyData := do
  let ok ← validate_length "TransactionRecordParser" TransactionRecordParser.expected_min_length body
  if !ok then return []
  let period := fun (nm : String) (off : Nat) =>
    [(nm ++ "_unit_price", Val.rat ((leNat (pySlice body off (off + 4)) : ℚ) / 100000)),
     (nm ++ "_energy_kwh", Val.rat ((leNat (pySlice body (off + 4) (off + 8)) : ℚ) / 10000)),
     (nm ++ "_energy_with_loss_kwh", Val.rat ((leNat (pySlice body (off + 8) (off + 12)) : ℚ) / 10000)),
     (nm ++ "_amount_yuan", Val.rat ((leNat (pySlice body (off + 12) (off + 16)) : ℚ) / 10000))]
  let vin ← ascii_to_str (pySlice body 124 141)
  let trade_type ← PM.getByte body 141
  let stop_reason ← PM.getByte body 149
  let card_number := leNat (pySlice body 150 158)
  return [("transaction_id", .str (bcd_to_str (pySlice body 0 16))),
      ("pile_code", .str (bcd_to_str (pySlice body 16 23))),
      ("gun_number", .str (bcd_to_str (pySlice body 23 24))),
      ("start_time", .str (parse_cp56time2a (pySlice body 24 31))),
      ("end_time", .str (parse_cp56time2a (pySlice body 31 38)))]
    ++ period "sharp" 38 ++ period "peak" 54 ++ period "flat" 70 ++ period "valley" 86
    ++ [("meter_start_value_kwh", .rat ((leNat (pySlice body 102 107) : ℚ) / 10000)),
      ("meter_end_value_kwh", .rat ((leNat (pySlice body 107 112) : ℚ) / 10000)),
      ("total_energy_kwh", .rat ((leNat (pySlice body 112 116) : ℚ) / 10000)),
      ("total_energy_with_loss_kwh", .rat ((leNat (pySlice body 116 120) : ℚ) / 10000)),
      ("total_amount_yuan", .rat ((leNat (pySlice body 120 124) : ℚ) / 10000)),
      ("vin_code", .str vin),
      ("trade_type", .str (pyGet [(0x01, "app启动"), (0x02, "卡启动"),
        (0x04, "离线卡启动"), (0x05, "VIN码启动充电")] trade_type (unknownCode trade_type))),
      ("trade_type_code", .nat trade_type),
      ("trade_datetime", .str (parse_cp56time2a (pySlice body 142 149))),
      ("stop_reason_code", .nat stop_reason),
      ("stop_reason", .str ("停止原因代码: " ++ toString stop_reason)),
      ("physical_card_number", .str (if card_number > 0 then hex16 card_number else "无卡"))]

/-- 交易记录确认 (0x40). -/
def TransactionConfirmParser.expected_min_length : Nat := 17

/-- TransactionConfirmParser.parse of frame_parsers.py. -/
def TransactionConfirmParser.parse (body : List Nat) : PM BodyData := do
  let ok ← validate_length "TransactionConfirmParser" TransactionConfirmParser.expected_min_length body
  if !ok then return []
  let confirm_result ← PM.getByte body 16
  return [("transaction_id", .str (bcd_to_str (pySlice body 0 16))),
    ("confirm_result", .str (if confirm_result = 0 then "上传成功" else "非法账单")),
    ("confirm_result_code", .nat confirm_result)]

/-- 远程账户余额更新 (0x42). -/
def BalanceUpdateRequestParser.expected_min_length : Nat := 20

/-- BalanceUpdateRequestParser.parse of frame_parsers.py. -/
def BalanceUpdateRequestParser.parse (body : List Nat) : PM BodyData := do
  let ok ← validate_length "BalanceUpdateRequestParser" BalanceUpdateRequestParser.expected_min_length body
  if !ok then return []
  let card_number := leNat (pySlice body 8 16)
  let balance := leNat (pySlice body 16 20)
  return [("pile_code", .str (bcd_to_str (pySlice body 0 7))),
    ("gun_number", .str (bcd_to_str (pySlice body 7 8))),
    ("physical_card_number", .str (if card_number > 0 then hex16 card_number else "无需校验")),
    ("new_balance_yuan", .rat ((balance : ℚ) / 100))]

/-- 余额更新应答 (0x41). -/
def BalanceUpdateResponseParser.expected_min_length : Nat := 16

/-- BalanceUpdateResponseParser.parse of frame_parsers.py. -/
def BalanceUpdateResponseParser.parse (body : List Nat) : PM BodyData := do
  let ok ← validate_length "BalanceUpdateResponseParser" BalanceUpdateResponseParser.expected_min_length body
  if !ok then return []
  let card_number := leNat (pySlice body 7 15)
  let modify_result ← PM.getByte body 15
  return [("pile_code", .str (bcd_to_str (pySlice body 0 7))),
    ("physical_card_number", .str (if card_number > 0 then hex16 card_number else "无")),
    ("modify_result", .str (pyGet [(0x00, "修改成功"), (0x01, "设备编号错误"),
      (0x02, "卡号错误")] modify_result (unknownCode modify_result))),
    ("modify_result_code", .nat modify_result)]

/-- 参数配置 (0x17). -/
def ParameterConfigParser.expected_min_length : Nat := 41

/-- ParameterConfigParser.parse of frame_parsers.py. -/
def ParameterConfigParser.parse (body : List Nat) : PM BodyData := do
  let ok ← validate_length "ParameterConfigParser" ParameterConfigParser.expected_min_length body
  if !ok then return []
  let max_temp ← PM.getByte body 32
  return [("transaction_id", .str (bcd_to_str (pySlice body 0 16))),
    ("pile_code", .str (bcd_to_str (pySlice body 16 23))),
    ("gun_number", .str (bcd_to_str (pySlice body 23 24))),
    ("bms_max_cell_voltage_v", .rat ((leNat (pySlice body 24 26) : ℚ) / 100)),
    ("bms_max_charge_current_a", .rat ((leNat (pySlice body 26 28) : ℚ) / 10 - 400)),
    ("bms_rated_energy_kwh", .rat ((leNat (pySlice body 28 30) : ℚ) / 10)),
    ("bms_max_total_voltage_v", .rat ((leNat (pySlice body 30 32) : ℚ) / 10)),
    ("bms_max_temperature_celsius", .int ((max_temp : Int) - 50)),
    ("bms_soc_percent", .rat ((leNat (pySlice body 33 35) : ℚ) / 10)),
    ("bms_current_voltage_v", .rat ((leNat (pySlice body 35 37) : ℚ) / 10)),
    ("charger_max_output_voltage_v", .rat ((leNat (pySlice body 37 39) : ℚ) / 10)),
    ("charger_min_output_voltage_v", .rat ((leNat (pySlice body 39 41) : ℚ) / 10)),
    ("charger_max_output_current_a", .rat ((leNat (pySlice body 41 43) : ℚ) / 10 - 400)),
    ("charger_min_output_current_a", .rat ((leNat (pySlice body 43 45) : ℚ) / 10 - 400))]

/-- 充电结束 (0x19). -/
def ChargingEndParser.expected_min_length : Nat := 35

/-- ChargingEndParser.parse of frame_parsers.py. -/
def ChargingEndParser.parse (body : List Nat) : PM BodyData := do
  let ok ← validate_length "ChargingEndParser" ChargingEndParser.expected_min_length body
  if !ok then return []
  let stop_soc ← PM.getByte body 24
  let min_temp ← PM.getByte body 29
  let max_temp ← PM.getByte body 30
  return [("transaction_id", .str (bcd_to_str (pySlice body 0 16))),
    ("pile_code", .str (bcd_to_str (pySlice body 16 23))),
    ("gun_number", .str (bcd_to_str (pySlice body 23 24))),
    ("bms_stop_soc_percent", .nat stop_soc),
    ("bms_min_cell_voltage_v", .rat ((leNat (pySlice body 25 27) : ℚ) / 100)),
    ("bms_max_cell_voltage_v", .rat ((leNat (pySlice body 27 29) : ℚ) / 100)),
    ("bms_min_temperature_celsius", .int ((min_temp : Int) - 50)),
    ("bms_max_temperature_celsius", .int ((max_temp : Int) - 50)),
    ("charger_total_time_minutes", .nat (leNat (pySlice body 31 33))),
    ("charger_output_energy_kwh", .rat ((leNat (pySlice body 33 35) : ℚ) / 10)),
    ("charger_number", .nat (leNat (pySlice body 35 39)))]

/-- 错误报文 (0x1B). -/
def ErrorMessageParser.expected_min_length : Nat := 32

/-- ErrorMessageParser.parse of frame_parsers.py. -/
def ErrorMessageParser.parse (body : List Nat) : PM BodyData := do
  let ok ← validate_length "ErrorMessageParser" ErrorMessageParser.expected_min_length body
  if !ok then return []
  let error_bytes := pySlice body 24 32
  return [("transaction_id", .str (bcd_to_str (pySlice body 0 16))),
    ("pile_code", .str (bcd_to_str (pySlice body 16 23))),
    ("gun_number", .str (bcd_to_str (pySlice body 23 24))),
    ("error_bytes_hex", .str (bytesHexUpper error_bytes)),
    ("errors", .strList (error_bytes.enum.map
      (fun p => "错误字节" ++ toString (p.1 + 1) ++ ": " ++ hex0x2 p.2)))]

/-- BMSStopParser._parse_bms_stop_reason. -/
def bmsStopReason (reason : Nat) : String :=
  let reasons :=
    (if reason &&& 0x03 ≠ 0 then ["达到所需求的SOC目标值"] else []) ++
    (if reason &&& 0x0C ≠ 0 then ["达到总电压的设定值"] else []) ++
    (if reason &&& 0x30 ≠ 0 then ["达到单体电压设定值"] else []) ++
    (if reason &&& 0xC0 ≠ 0 then ["充电机主动中止"] else [])
  if reasons.isEmpty then "无" else String.intercalate "; " reasons

/-- BMSStopParser._parse_bms_fault_reason. -/
def bmsFaultReason (fault : Nat) : String :=
  let names := ["绝缘故障", "输出连接器过温故障", "BMS元件、输出连接器过温",
    "充电连接器故障", "电池组温度过高故障", "高压继电器故障",
    "检测点2电压检测故障", "其他故障"]
  let faults := names.enum.filterMap
    (fun p => if fault &&& (0x03 <<< (p.1 * 2)) ≠ 0 then some p.2 else none)
  if faults.isEmpty then "无" else String.intercalate "; " faults

/-- BMSStopParser._parse_bms_error_reason. -/
def bmsErrorReason (error : Nat) : String :=
  let errors :=
    (if error &&& 0x03 ≠ 0 then ["电流过大"] else []) ++
    (if error &&& 0x0C ≠ 0 then ["电压异常"] else [])
  if errors.isEmpty then "无" else String.intercalate "; " errors

/-- 充电阶段BMS中止 (0x1D). -/
def BMSStopParser.expected_min_length : Nat := 28

/-- BMSStopParser.parse of frame_parsers.py. -/
def BMSStopParser.parse (body : List Nat) : PM BodyData := do
  let ok ← validate_length "BMSStopParser" BMSStopParser.expected_min_length body
  if !ok then return []
  let stop_reason ← PM.getByte body 24
  let fault_reason := leNat (pySlice body 25 27)
  let error_reason ← PM.getByte body 27
  return [("transaction_id", .str (bcd_to_str (pySlice body 0 16))),
    ("pile_code", .str (bcd_to_str (pySlice body 16 23))),
    ("gun_number", .str (bcd_to_str (pySlice body 23 24))),
    ("bms_stop_reason_code", .nat stop_reason),
    ("bms_stop_reason", .str (bmsStopReason stop_reason)),
    ("bms_fault_reason_code", .nat fault_reason),
    ("bms_fault_reason", .str (bmsFaultReason fault_reason)),
    ("bms_error_reason_code", .nat error_reason),
    ("bms_error_reason", .str (bmsErrorReason error_reason))]

/-- ChargerStopParser._parse_charger_stop_reason. -/
def chargerStopReason (reason : Nat) : String :=
  let reasons :=
    (if reason &&& 0x03 ≠ 0 then ["达到充电机设定的条件中止"] else []) ++
    (if reason &&& 0x0C ≠ 0 then ["人工中止"] else []) ++
    (if reason &&& 0x30 ≠ 0 then ["异常中止"] else []) ++
    (if reason &&& 0xC0 ≠ 0 then ["BMS主动中止"] else [])
  if reasons.isEmpty then "无" else String.intercalate "; " reasons

/-- ChargerStopParser._parse_charger_fault_reason. -/
def chargerFaultReason (fault : Nat) : String :=
  let names := ["充电机过温故障", "充电连接器故障", "充电机内部过温故障",
    "所需电量不能传送", "充电机急停故障", "其他故障"]
  let faults := names.enum.filterMap
    (fun p => if fault &&& (0x03 <<< (p.1 * 2)) ≠ 0 then some p.2 else none)
  if faults.isEmpty then "无" else String.intercalate "; " faults

/-- ChargerStopParser._parse_charger_error_reason. -/
def chargerErrorReason (error : Nat) : String :=
  let errors :=
    (if error &&& 0x03 ≠ 0 then ["电流不匹配"] else []) ++
    (if error &&& 0x0C ≠ 0 then ["电压异常"] else [])
  if errors.isEmpty then "无" else String.intercalate "; " errors

/-- 充电阶段充电机中止 (0x21). -/
def ChargerStopParser.expected_min_length : Nat := 28

/-- ChargerStopParser.parse of frame_parsers.py. -/
def ChargerStopParser.parse (body : List Nat) : PM BodyData := do
  let ok ← validate_length "ChargerStopParser" ChargerStopParser.expected_min_length body
  if !ok then return []
  let stop_reason ← PM.getByte body 24
  let fault_reason := leNat (pySlice body 25 27)
  let error_reason ← PM.getByte body 27
  return [("transaction_id", .str (bcd_to_str (pySlice body 0 16))),
    ("pile_code", .str (bcd_to_str (pySlice body 16 23))),
    ("gun_number", .str (bcd_to_str (pySlice body 23 24))),
    ("charger_stop_reason_code", .nat stop_reason),
    ("charger_stop_reason", .str (chargerStopReason stop_reason)),
    ("charger_fault_reason_code", .nat fault_reason),
    ("charger_fault_reason", .str (chargerFaultReason fault_reason)),
    ("charger_error_reason_code", .nat error_reason),
    ("charger_error_reason", .str (chargerErrorReason error_reason))]

/-- BMS需求/充电机输出 (0x23). -/
def BMSDemandOutputParser.expected_min_length : Nat := 40

/-- BMSDemandOutputParser.parse of frame_parsers.py. -/
def BMSDemandOutputParser.parse (body : List Nat) : PM BodyData := do
  let ok ← validate_length "BMSDemandOutputParser" BMSDemandOutputParser.expected_min_length body
  if !ok then return []
  let charge_mode ← PM.getByte body 28
  let cell_voltage_data := leNat (pySlice body 33 35)
  let soc ← PM.getByte body 35
  return [("transaction_id", .str (bcd_to_str (pySlice body 0 16))),
    ("pile_code", .str (bcd_to_str (pySlice body 16 23))),
    ("gun_number", .str (bcd_to_str (pySlice body 23 24))),
    ("bms_voltage_demand_v", .rat ((leNat (pySlice body 24 26) : ℚ) / 10)),
    ("bms_current_demand_a", .rat ((leNat (pySlice body 26 28) : ℚ) / 10 - 400)),
    ("bms_charge_mode", .str (if charge_mode = 1 then "恒压充电" else "恒流充电")),
    ("bms_charge_mode_code", .nat charge_mode),
    ("bms_voltage_measured_v", .rat ((leNat (pySlice body 29 31) : ℚ) / 10)),
    ("bms_current_measured_a", .rat ((leNat (pySlice body 31 33) : ℚ) / 10 - 400)),
    ("bms_max_cell_voltage_v", .rat (((cell_voltage_data &&& 0x0FFF : Nat) : ℚ) / 100)),
    ("bms_max_cell_group_number", .nat ((cell_voltage_data >>> 12) &&& 0x0F)),
    ("bms_current_soc_percent", .nat soc),
    ("bms_estimated_remaining_time_minutes", .nat (leNat (pySlice body 36 38))),
    ("charger_output_voltage_v", .rat ((leNat (pySlice body 38 40) : ℚ) / 10)),
    ("charger_output_current_a", .rat ((leNat (pySlice body 40 42) : ℚ) / 10 - 400)),
    ("total_charge_time_minutes", .nat (leNat (pySlice body 42 44)))]

/-- BMSInfoParser._parse_bms_status_flags: seven 2-bit status fields of the
little-endian status word. -/
def bmsStatusFlags (status_bytes : List Nat) : List (String × Val) :=
  let s := leNat status_bytes
  [("单体电压", .str (pyGet [(0, "正常"), (1, "过高"), (2, "过低")] ((s >>> 0) &&& 0x03) "未知")),
   ("SOC", .str (pyGet [(0, "正常"), (1, "过高"), (2, "过低")] ((s >>> 2) &&& 0x03) "未知")),
   ("充电过电流", .str (pyGet [(0, "正常"), (1, "过流"), (2, "不可信")] ((s >>> 4) &&& 0x03) "未知")),
   ("电池温度", .str (pyGet [(0, "正常"), (1, "过高"), (2, "不可信")] ((s >>> 6) &&& 0x03) "未知")),
   ("绝缘状态", .str (pyGet [(0, "正常"), (1, "故障"), (2, "不可信")] ((s >>> 8) &&& 0x03) "未知")),
   ("输出连接器", .str (pyGet [(0, "正常"), (1, "故障"), (2, "不可信")] ((s >>> 10) &&& 0x03) "未知")),
   ("充电许可", .str (pyGet [(0, "禁止"), (1, "允许")] ((s >>> 12) &&& 0x03) "未知"))]

/-- BMS信息 (0x25). -/
def BMSInfoParser.expected_min_length : Nat := 31

/-- BMSInfoParser.parse of frame_parsers.py. -/
def BMSInfoParser.parse (body : List Nat) : PM BodyData := do
  let ok ← validate_length "BMSInfoParser" BMSInfoParser.expected_min_length body
  if !ok then return []
  let max_cell_number ← PM.getByte body 24
  let max_temp ← PM.getByte body 25
  let max_temp_sensor ← PM.getByte body 26
  let min_temp ← PM.getByte body 27
  let min_temp_sensor ← PM.getByte body 28
  let status_bytes := pySlice body 29 31
  return [("transaction_id", .str (bcd_to_str (pySlice body 0 16))),
    ("pile_code", .str (bcd_to_str (pySlice body 16 23))),
    ("gun_number", .str (bcd_to_str (pySlice body 23 24))),
    ("bms_max_cell_number", .nat (max_cell_number + 1)),
    ("bms_max_temperature_celsius", .int ((max_temp : Int) - 50)),
    ("max_temperature_sensor_number", .nat (max_temp_sensor + 1)),
    ("bms_min_temperature_celsius", .int ((min_temp : Int) - 50)),
    ("min_temperature_sensor_number", .nat (min_temp_sensor + 1)),
    ("status_hex", .str (bytesHexUpper status_bytes)),
    ("status_flags", .record (bmsStatusFlags status_bytes))]

/-- 充电桩主动申请启动 (0x31). -/
def ChargingStartRequestParser.expected_min_length : Nat := 21

/-- ChargingStartRequestParser.parse of frame_parsers.py. -/
def ChargingStartRequestParser.parse (body : List Nat) : PM BodyData := do
  let ok ← validate_length "ChargingStartRequestParser" ChargingStartRequestParser.expected_min_length body
  if !ok then return []
  let card_number := leNat (pySlice body 8 16)
  let balance := leNat (pySlice body 16 20)
  let start_mode ← PM.getByte body 20
  return [("pile_code", .str (bcd_to_str (pySlice body 0 7))),
    ("gun_number", .str (bcd_to_str (pySlice body 7 8))),
    ("physical_card_number", .str (if card_number > 0 then hex16 card_number else "无卡")),
    ("card_balance_yuan", .rat ((balance : ℚ) / 100)),
    ("start_mode", .str (pyGet [(0x01, "刷卡启动"), (0x02, "VIN启动"),
      (0x03, "自动充满"), (0x04, "按电量"), (0x05, "按金额"), (0x06, "按时间")]
      start_mode (unknownCode start_mode))),
    ("start_mode_code", .nat start_mode)]

/-- 确认启动充电 (0x32). -/
def ChargingStartConfirmParser.expected_min_length : Nat := 13

/-- ChargingStartConfirmParser.parse of frame_parsers.py. -/
def ChargingStartConfirmParser.parse (body : List Nat) : PM BodyData := do
  let ok ← validate_length "ChargingStartConfirmParser" ChargingStartConfirmParser.expected_min_length body
  if !ok then return []
  let start_result ← PM.getByte body 8
  let charge_mode ← PM.getByte body 9
  return [("pile_code", .str (bcd_to_str (pySlice body 0 7))),
    ("gun_number", .str (bcd_to_str (pySlice body 7 8))),
    ("start_result", .str (if start_result = 0 then "启动成功" else "启动失败")),
    ("start_result_code", .nat start_result),
    ("charge_mode", .str (pyGet [(0x01, "自动充满"), (0x02, "按电量"),
      (0x03, "按金额"), (0x04, "按时间")] charge_mode (unknownCode charge_mode))),
    ("charge_mode_code", .nat charge_mode),
    ("order_number", .nat (leNat (pySlice body 10 14)))]

/-- 远程启机回复 (0x33). -/
def RemoteStartReplyParser.expected_min_length : Nat := 15

/-- RemoteStartReplyParser.parse of frame_parsers.py. -/
def RemoteStartReplyParser.parse (body : List Nat) : PM BodyData := do
  let ok ← validate_length "RemoteStartReplyParser" RemoteStartReplyParser.expected_min_length body
  if !ok then return []
  let exec_result ← PM.getByte body 8
  let fail_reason ← PM.getByte body 13
  return [("pile_code", .str (bcd_to_str (pySlice body 0 7))),
    ("gun_number", .str (bcd_to_str (pySlice body 7 8))),
    ("exec_result", .str (if exec_result = 0 then "执行成功" else "执行失败")),
    ("exec_result_code", .nat exec_result),
    ("order_number", .nat (leNat (pySlice body 9 13))),
    ("fail_reason", .str (pyGet [(0x00, "无"), (0x01, "此充电桩不存在"),
      (0x02, "此充电枪不存在"), (0x03, "设备故障"), (0x04, "设备离线"),
      (0x05, "充电桩有车占位"), (0x06, "充电桩已在充电")]
      fail_reason (unknownCode fail_reason))),
    ("fail_reason_code", .nat fail_reason)]

/-- 远程控制启机 (0x34). -/
def RemoteStartCommandParser.expected_min_length : Nat := 21

/-- RemoteStartCommandParser.parse of frame_parsers.py. -/
def RemoteStartCommandParser.parse (body : List Nat) : PM BodyData := do
  let ok ← validate_length "RemoteStartCommandParser" RemoteStartCommandParser.expected_min_length body
  if !ok then return []
  let card_number := leNat (pySlice body 8 16)
  let balance := leNat (pySlice body 16 20)
  let charge_mode ← PM.getByte body 20
  return [("pile_code", .str (bcd_to_str (pySlice body 0 7))),
    ("gun_number", .str (bcd_to_str (pySlice body 7 8))),
    ("physical_card_number", .str (if card_number > 0 then hex16 card_number else "无卡")),
    ("card_balance_yuan", .rat ((balance : ℚ) / 100)),
    ("charge_mode", .str (pyGet [(0x01, "自动充满"), (0x02, "按电量"),
      (0x03, "按金额"), (0x04, "按时间")] charge_mode (unknownCode charge_mode))),
    ("charge_mode_code", .nat charge_mode)]

/-- 远程停机回复 (0x35). -/
def RemoteStopReplyParser.expected_min_length : Nat := 14

/-- RemoteStopReplyParser.parse of frame_parsers.py. -/
def RemoteStopReplyParser.parse (body : List Nat) : PM BodyData := do
  let ok ← validate_length "RemoteStopReplyParser" RemoteStopReplyParser.expected_min_length body
  if !ok then return []
  let exec_result ← PM.getByte body 8
  let fail_reason ← PM.getByte body 13
  return [("pile_code", .str (bcd_to_str (pySlice body 0 7))),
    ("gun_number", .str (bcd_to_str (pySlice body 7 8))),
    ("exec_result", .str (if exec_result = 0 then "执行成功" else "执行失败")),
    ("exec_result_code", .nat exec_result),
    ("order_number", .nat (leNat (pySlice body 9 13))),
    ("fail_reason", .str (pyGet [(0x00, "无"), (0x01, "此充电桩不存在"),
      (0x02, "此充电枪不存在"), (0x03, "设备故障"), (0x04, "设备离线"),
      (0x05, "充电枪空闲")] fail_reason (unknownCode fail_reason))),
    ("fail_reason_code", .nat fail_reason)]

/-- 远程停机 (0x36). -/
def RemoteStopCommandParser.expected_min_length : Nat := 12

/-- RemoteStopCommandParser.parse of frame_parsers.py. -/
def RemoteStopCommandParser.parse (body : List Nat) : PM BodyData := do
  let ok ← validate_length "RemoteStopCommandParser" RemoteStopCommandParser.expected_min_length body
  if !ok then return []
  return [("pile_code", .str (bcd_to_str (pySlice body 0 7))),
    ("gun_number", .str (bcd_to_str (pySlice body 7 8))),
    ("order_number", .nat (leNat (pySlice body 8 12)))]

/-- 离线卡数据同步 (0x44). -/
def OfflineCardSyncParser.expected_min_length : Nat := 8

/-- OfflineCardSyncParser.parse of frame_parsers.py: a declared card count
followed by 16-byte records; iteration is clamped to the records fully
available and a count/length mismatch records an error. -/
def OfflineCardSyncParser.parse (body : List Nat) : PM BodyData := do
  let ok ← validate_length "OfflineCardSyncParser" OfflineCardSyncParser.expected_min_length body
  if !ok then return []
  let card_count ← PM.getByte body 7
  let expected_len := 8 + card_count * 16
  if body.length < expected_len then
    PM.err (.cardDataInsufficient expected_len body.length)
  let cards := (List.range (min card_count ((body.length - 8) / 16))).map
    (fun i =>
      [("logical_card_number", Val.str (bcd_to_str (pySlice body (8 + 16 * i) (8 + 16 * i + 8)))),
       ("physical_card_number", Val.str (hex16 (leNat (pySlice body (8 + 16 * i + 8) (8 + 16 * i + 16)))))])
  return [("pile_code", .str (bcd_to_str (pySlice body 0 7))),
    ("card_count", .nat card_count),
    ("cards", .recordList cards)]

/-- 离线卡数据同步应答 (0x43). -/
def OfflineCardSyncResponseParser.expected_min_length : Nat := 9

/-- OfflineCardSyncResponseParser.parse of frame_parsers.py. -/
def OfflineCardSyncResponseParser.parse (body : List Nat) : PM BodyData := do
  let ok ← validate_length "OfflineCardSyncResponseParser" OfflineCardSyncResponseParser.expected_min_length body
  if !ok then return []
  let save_result ← PM.getByte body 7
  let fail_reason ← PM.getByte body 8
  return [("pile_code", .str (bcd_to_str (pySlice body 0 7))),
    ("save_result", .str (if save_result = 1 then "成功" else "失败")),
    ("save_result_code", .nat save_result),
    ("fail_reason", .str (pyGet [(0x00, "无"), (0x01, "卡号格式错误"),
      (0x02, "储存空间不足")] fail_reason (unknownCode fail_reason))),
    ("fail_reason_code", .nat fail_reason)]

/-- 离线卡数据清除 (0x46). -/
def OfflineCardDeleteParser.expected_min_length : Nat := 8

/-- OfflineCardDeleteParser.parse of frame_parsers.py: a declared card count
followed by 8-byte card numbers; iteration clamped, mismatch is an error. -/
def OfflineCardDeleteParser.parse (body : List Nat) : PM BodyData := do
  let ok ← validate_length "OfflineCardDeleteParser" OfflineCardDeleteParser.expected_min_length body
  if !ok then return []
  let card_count ← PM.getByte body 7
  let expected_len := 8 + card_count * 8
  if body.length < expected_len then
    PM.err (.cardDataInsufficient expected_len body.length)
  let cards := (List.range (min card_count ((body.length - 8) / 8))).map
    (fun i => hex16 (leNat (pySlice body (8 + 8 * i) (8 + 8 * i + 8))))
  return [("pile_code", .str (bcd_to_str (pySlice body 0 7))),
    ("card_count", .nat card_count),
    ("card_numbers", .strList cards)]

/-- 离线卡数据清除应答 (0x45). -/
def OfflineCardDeleteResponseParser.expected_min_length : Nat := 7

/-- OfflineCardDeleteResponseParser.parse of frame_parsers.py: after the pile
code, as many complete 10-byte records as fit (the while loop guard
offset + 10 <= len(body) admits exactly (len - 7) / 10 records, and the
guard keeps every byte access in range). -/
def OfflineCardDeleteResponseParser.parse (body : List Nat) : PM BodyData := do
  let ok ← validate_length "OfflineCardDeleteResponseParser" OfflineCardDeleteResponseParser.expected_min_length body
  if !ok then return []
  let cards := (List.range ((body.length - 7) / 10)).map
    (fun i =>
      let off := 7 + 10 * i
      let delete_flag := body.getD (off + 8) 0
      let fail_reason := body.getD (off + 9) 0
      [("physical_card_number", Val.str (hex16 (leNat (pySlice body off (off + 8))))),
       ("delete_result", Val.str (if delete_flag = 1 then "清除成功" else "清除失败")),
       ("delete_flag", Val.nat delete_flag),
       ("fail_reason", Val.str (pyGet [(0x00, "清除成功"), (0x01, "卡号格式错误")]
         fail_reason (unknownCode fail_reason))),
       ("fail_reason_code", Val.nat fail_reason)])
  return [("pile_code", .str (bcd_to_str (pySlice body 0 7))),
    ("cards", .recordList cards)]

/-- 离线卡数据查询 (0x48). -/
def OfflineCardQueryParser.expected_min_length : Nat := 8

/-- OfflineCardQueryParser.parse of frame_parsers.py: a declared card count
followed by 8-byte card numbers; iteration clamped, mismatch is an error. -/
def OfflineCardQueryParser.parse (body : List Nat) : PM BodyData := do
  let ok ← validate_length "OfflineCardQueryParser" OfflineCardQueryParser.expected_min_length body
  if !ok then return []
  let card_count ← PM.getByte body 7
  let expected_len := 8 + card_count * 8
  if body.length < expected_len then
    PM.err (.cardDataInsufficient expected_len body.length)
  let cards := (List.range (min card_count ((body.length - 8) / 8))).map
    (fun i => hex16 (leNat (pySlice body (8 + 8 * i) (8 + 8 * i + 8))))
  return [("pile_code", .str (bcd_to_str (pySlice body 0 7))),
    ("card_count", .nat card_count),
    ("card_numbers", .strList cards)]

/-- 离线卡数据查询应答 (0x47). -/
def OfflineCardQueryResponseParser.expected_min_length : Nat := 7

/-- OfflineCardQueryResponseParser.parse of frame_parsers.py: after the pile
code, as many complete 9-byte records as fit (loop guard
offset + 9 <= len(body)). -/
def OfflineCardQueryResponseParser.parse (body : List Nat) : PM BodyData := do
  let ok ← validate_length "OfflineCardQueryResponseParser" OfflineCardQueryResponseParser.expected_min_length body
  if !ok then return []
  let cards := (List.range ((body.length - 7) / 9)).map
    (fun i =>
      let off := 7 + 9 * i
      let query_result := body.getD (off + 8) 0
      [("physical_card_number", Val.str (hex16 (leNat (pySlice body off (off + 8))))),
       ("exists", Val.bool (query_result == 1)),
       ("query_result", Val.str (if query_result = 1 then "存在" else "不存在")),
       ("query_result_code", Val.nat query_result)])
  return [("pile_code", .str (bcd_to_str (pySlice body 0 7))),
    ("cards", .recordList cards)]

/-- 工作参数设置应答 (0x51). -/
def WorkParameterSetResponseParser.expected_min_length : Nat := 8

/-- WorkParameterSetResponseParser.parse of frame_parsers.py. -/
def WorkParameterSetResponseParser.parse (body : List Nat) : PM BodyData := do
  let ok ← validate_length "WorkParameterSetResponseParser" WorkParameterSetResponseParser.expected_min_length body
  if !ok then return []
  let set_result ← PM.getByte body 7
  return [("pile_code", .str (bcd_to_str (pySlice body 0 7))),
    ("set_result", .str (if set_result = 0 then "设置成功" else "设置失败")),
    ("set_result_code", .nat set_result)]

/-- 工作参数设置 (0x52). -/
def WorkParameterSetParser.expected_min_length : Nat := 18

/-- WorkParameterSetParser.parse of frame_parsers.py. -/
def WorkParameterSetParser.parse (body : List Nat) : PM BodyData := do
  let ok ← validate_length "WorkParameterSetParser" WorkParameterSetParser.expected_min_length body
  if !ok then return []
  let param_type ← PM.getByte body 7
  let param_value := pySlice body 8 18
  let param_value_ascii ← ascii_to_str param_value
  return [("pile_code", .str (bcd_to_str (pySlice body 0 7))),
    ("param_type", .str (pyGet [(0x01, "心跳周期"), (0x02, "IP地址"),
      (0x03, "端口号"), (0x04, "APN"), (0x05, "服务器域名")]
      param_type (unknownCode param_type))),
    ("param_type_code", .nat param_type),
    ("param_value", .str (bytesHexUpper param_value)),
    ("param_value_ascii", .str param_value_ascii)]

/-- 对时设置应答 (0x55). -/
def TimeSyncResponseParser.expected_min_length : Nat := 8

/-- TimeSyncResponseParser.parse of frame_parsers.py. -/
def TimeSyncResponseParser.parse (body : List Nat) : PM BodyData := do
  let ok ← validate_length "TimeSyncResponseParser" TimeSyncResponseParser.expected_min_length body
  if !ok then return []
  let sync_result ← PM.getByte body 7
  return [("pile_code", .str (bcd_to_str (pySlice body 0 7))),
    ("sync_result", .str (if sync_result = 0 then "对时成功" else "对时失败")),
    ("sync_result_code", .nat sync_result)]

/-- 对时设置 (0x56). -/
def TimeSyncParser.expected_min_length : Nat := 14

/-- TimeSyncParser.parse of frame_parsers.py. -/
def TimeSyncParser.parse (body : List Nat) : PM BodyData := do
  let ok ← validate_length "TimeSyncParser" TimeSyncParser.expected_min_length body
  if !ok then return []
  return [("pile_code", .str (bcd_to_str (pySlice body 0 7))),
    ("sync_time", .str (parse_cp56time2a (pySlice body 7 14)))]

/-- 计费模型应答 (0x57). -/
def BillingModelResponseParser.expected_min_length : Nat := 8

/-- BillingModelResponseParser.parse of frame_parsers.py. -/
def BillingModelResponseParser.parse (body : List Nat) : PM BodyData := do
  let ok ← validate_length "BillingModelResponseParser" BillingModelResponseParser.expected_min_length body
  if !ok then return []
  let set_result ← PM.getByte body 7
  return [("pile_code", .str (bcd_to_str (pySlice body 0 7))),
    ("set_result", .str (if set_result = 0 then "设置成功" else "设置失败")),
    ("set_result_code", .nat set_result)]

/-- 计费模型设置 (0x58). -/
def BillingModelSetParser.expected_min_length : Nat := 29

/-- BillingModelSetParser.parse of frame_parsers.py. -/
def BillingModelSetParser.parse (body : List Nat) : PM BodyData := do
  let ok ← validate_length "BillingModelSetParser" BillingModelSetParser.expected_min_length body
  if !ok then return []
  return [("pile_code", .str (bcd_to_str (pySlice body 0 7))),
    ("billing_model_data", .str (bytesHexUpper (body.drop 7))),
    ("note", .str "计费模型数据结构待详细解析")]

/-- 地锁数据上送 (0x61). -/
def ParkingLockStatusParser.expected_min_length : Nat := 9

/-- ParkingLockStatusParser.parse of frame_parsers.py. -/
def ParkingLockStatusParser.parse (body : List Nat) : PM BodyData := do
  let ok ← validate_length "ParkingLockStatusParser" ParkingLockStatusParser.expected_min_length body
  if !ok then return []
  let lock_status ← PM.getByte body 7
  let battery_level ← PM.getByte body 8
  return [("pile_code", .str (bcd_to_str (pySlice body 0 7))),
    ("lock_status", .str (pyGet [(0x00, "降下"), (0x01, "升起"), (0x02, "故障")]
      lock_status (unknownCode lock_status))),
    ("lock_status_code", .nat lock_status),
    ("battery_level_percent", .nat battery_level)]

/-- 遥控地锁升降 (0x62). -/
def ParkingLockControlParser.expected_min_length : Nat := 8

/-- ParkingLockControlParser.parse of frame_parsers.py. -/
def ParkingLockControlParser.parse (body : List Nat) : PM BodyData := do
  let ok ← validate_length "ParkingLockControlParser" ParkingLockControlParser.expected_min_length body
  if !ok then return []
  let control_cmd ← PM.getByte body 7
  return [("pile_code", .str (bcd_to_str (pySlice body 0 7))),
    ("control_command", .str (pyGet [(0x00, "降下"), (0x01, "升起")]
      control_cmd (unknownCode control_cmd))),
    ("control_command_code", .nat control_cmd)]

/-- 充电桩返回数据 (0x63). -/
def ParkingLockResponseParser.expected_min_length : Nat := 8

/-- ParkingLockResponseParser.parse of frame_parsers.py. -/
def ParkingLockResponseParser.parse (body : List Nat) : PM BodyData := do
  let ok ← validate_length "ParkingLockResponseParser" ParkingLockResponseParser.expected_min_length body
  if !ok then return []
  let exec_result ← PM.getByte body 7
  return [("pile_code", .str (bcd_to_str (pySlice body 0 7))),
    ("exec_result", .str (if exec_result = 0 then "执行成功" else "执行失败")),
    ("exec_result_code", .nat exec_result)]

/-- 远程重启应答 (0x91). -/
def RemoteRebootResponseParser.expected_min_length : Nat := 8

/-- RemoteRebootResponseParser.parse of frame_parsers.py. -/
def RemoteRebootResponseParser.parse (body : List Nat) : PM BodyData := do
  let ok ← validate_length "RemoteRebootResponseParser" RemoteRebootResponseParser.expected_min_length body
  if !ok then return []
  let reboot_result ← PM.getByte body 7
  return [("pile_code", .str (bcd_to_str (pySlice body 0 7))),
    ("reboot_result", .str (if reboot_result = 0 then "重启成功" else "重启失败")),
    ("reboot_result_code", .nat reboot_result)]

/-- 远程重启 (0x92). -/
def RemoteRebootParser.expected_min_length : Nat := 7

/-- RemoteRebootParser.parse of frame_parsers.py. -/
def RemoteRebootParser.parse (body : List Nat) : PM BodyData := do
  let ok ← validate_length "RemoteRebootParser" RemoteRebootParser.expected_min_length body
  if !ok then return []
  return [("pile_code", .str (bcd_to_str (pySlice body 0 7)))]

/-- 远程更新应答 (0x93). -/
def RemoteUpdateResponseParser.expected_min_length : Nat := 8

/-- RemoteUpdateResponseParser.parse of frame_parsers.py. -/
def RemoteUpdateResponseParser.parse (body : List Nat) : PM BodyData := do
  let ok ← validate_length "RemoteUpdateResponseParser" RemoteUpdateResponseParser.expected_min_length body
  if !ok then return []
  let update_result ← PM.getByte body 7
  return [("pile_code", .str (bcd_to_str (pySlice body 0 7))),
    ("update_result", .str (if update_result = 0 then "更新成功" else "更新失败")),
    ("update_result_code", .nat update_result)]

/-- 远程更新 (0x94). -/
def RemoteUpdateParser.expected_min_length : Nat := 17

/-- RemoteUpdateParser.parse of frame_parsers.py. -/
def RemoteUpdateParser.parse (body : List Nat) : PM BodyData := do
  let ok ← validate_length "RemoteUpdateParser" RemoteUpdateParser.expected_min_length body
  if !ok then return []
  return [("pile_code", .str (bcd_to_str (pySlice body 0 7))),
    ("update_params", .str (bytesHexUpper (body.drop 7))),
    ("note", .str "更新参数数据待详细解析")]

/-- 主动申请并充 (0xA1). -/
def ParallelChargingRequestParser.expected_min_length : Nat := 8

/-- ParallelChargingRequestParser.parse of frame_parsers.py. -/
def ParallelChargingRequestParser.parse (body : List Nat) : PM BodyData := do
  let ok ← validate_length "ParallelChargingRequestParser" ParallelChargingRequestParser.expected_min_length body
  if !ok then return []
  let request_type ← PM.getByte body 7
  return [("pile_code", .str (bcd_to_str (pySlice body 0 7))),
    ("request_type", .str (if request_type = 1 then "申请并充" else unknownCode request_type)),
    ("request_type_code", .nat request_type)]

/-- 确认并充启动 (0xA2). -/
def ParallelChargingConfirmParser.expected_min_length : Nat := 8

/-- ParallelChargingConfirmParser.parse of frame_parsers.py. -/
def ParallelChargingConfirmParser.parse (body : List Nat) : PM BodyData := do
  let ok ← validate_length "ParallelChargingConfirmParser" ParallelChargingConfirmParser.expected_min_length body
  if !ok then return []
  let confirm_result ← PM.getByte body 7
  return [("pile_code", .str (bcd_to_str (pySlice body 0 7))),
    ("confirm_result", .str (if confirm_result = 0 then "确认成功" else "确认失败")),
    ("confirm_result_code", .nat confirm_result)]

/-- 远程并充启机回复 (0xA3). -/
def ParallelChargingReplyParser.expected_min_length : Nat := 8

/-- ParallelChargingReplyParser.parse of frame_parsers.py. -/
def ParallelChargingReplyParser.parse (body : List Nat) : PM BodyData := do
  let ok ← validate_length "ParallelChargingReplyParser" ParallelChargingReplyParser.expected_min_length body
  if !ok then return []
  let exec_result ← PM.getByte body 7
  return [("pile_code", .str (bcd_to_str (pySlice body 0 7))),
    ("exec_result", .str (if exec_result = 0 then "执行成功" else "执行失败")),
    ("exec_result_code", .nat exec_result)]

/-- 远程控制并充启机 (0xA4). -/
def ParallelChargingCommandParser.expected_min_length : Nat := 8

/-- ParallelChargingCommandParser.parse of frame_parsers.py. -/
def ParallelChargingCommandParser.parse (body : List Nat) : PM BodyData := do
  let ok ← validate_length "ParallelChargingCommandParser" ParallelChargingCommandParser.expected_min_length body
  if !ok then return []
  let control_cmd ← PM.getByte body 7
  return [("pile_code", .str (bcd_to_str (pySlice body 0 7))),
    ("control_command", .str (if control_cmd = 1 then "启动并充" else unknownCode control_cmd)),
    ("control_command_code", .nat control_cmd)]

/-- 后台下发二维码前缀指令 (0xF0). The class exists in frame_parsers.py but
is never registered with the factory, so frames of type 0xF0 are in fact
decoded by DefaultParser. -/
def QRCodePrefixSetParser.expected_min_length : Nat := 9

/-- QRCodePrefixSetParser.parse of frame_parsers.py. -/
def QRCodePrefixSetParser.parse (body : List Nat) : PM BodyData := do
  let ok ← validate_length "QRCodePrefixSetParser" QRCodePrefixSetParser.expected_min_length body
  if !ok then return []
  let prefix_format ← PM.getByte body 7
  let prefix_length ← PM.getByte body 8
  let remaining := body.length - 9
  let take := min prefix_length remaining
  let prefix_bytes := pySlice body 9 (9 + take)
  let qr ← if take > 0 then ascii_to_str prefix_bytes else PM.pure ""
  if remaining < prefix_length then
    PM.warn (.qrPrefixIncomplete prefix_length remaining)
  else if remaining > prefix_length then
    PM.warn (.qrPrefixTooLong prefix_length remaining)
  return [("pile_code", .str (bcd_to_str (pySlice body 0 7))),
    ("qrcode_prefix_format", .str (pyGet [(0x00, "第一种前缀+桩编号"),
      (0x01, "第二种前缀+组织号+桩编号")] prefix_format (unknownCode prefix_format))),
    ("qrcode_prefix_format_code", .nat prefix_format),
    ("qrcode_prefix_length", .nat prefix_length),
    ("qrcode_prefix", .str qr),
    ("qrcode_prefix_hex", .str (bytesHexUpper prefix_bytes))]

/-- 桩应答返回下发二维码前缀指令 (0xF1). Also unregistered, see above. -/
def QRCodePrefixSetResponseParser.expected_min_length : Nat := 8

/-- QRCodePrefixSetResponseParser.parse of frame_parsers.py. -/
def QRCodePrefixSetResponseParser.parse (body : List Nat) : PM BodyData := do
  let ok ← validate_length "QRCodePrefixSetResponseParser" QRCodePrefixSetResponseParser.expected_min_length body
  if !ok then return []
  let set_result ← PM.getByte body 7
  if set_result = 1 then
    PM.warn .qrResponseNote
  return [("pile_code", .str (bcd_to_str (pySlice body 0 7))),
    ("set_result", .str (if set_result = 1 then "成功" else "失败")),
    ("set_result_code", .nat set_result)]

/-- YKCProtocolParser.FRAME_TYPES of parse_ykc.py: frame-type code to
display name, in source order. -/
def FRAME_TYPES : List (Nat × String) :=
  [(0x01, "充电桩登录认证"),
   (0x02, "登录认证应答"),
   (0x03, "充电桩心跳包"),
   (0x04, "心跳包应答"),
   (0x05, "计费模型验证请求"),
   (0x06, "计费模型验证应答"),
   (0x09, "充电桩计费模型请求"),
   (0x0A, "计费模型请求应答"),
   (0x12, "读取实时监测数据"),
   (0x13, "上传实时监测数据"),
   (0x15, "充电握手"),
   (0x17, "参数配置"),
   (0x19, "充电结束"),
   (0x1B, "错误报文"),
   (0x1D, "充电阶段BMS中止"),
   (0x21, "充电阶段充电机中止"),
   (0x23, "BMS需求/充电机输出"),
   (0x25, "BMS信息"),
   (0x31, "充电桩主动申请启动"),
   (0x32, "确认启动充电"),
   (0x33, "远程启机回复"),
   (0x34, "远程控制启机"),
   (0x35, "远程停机回复"),
   (0x36, "远程停机"),
   (0x3B, "交易记录"),
   (0x40, "交易记录确认"),
   (0x41, "余额更新应答"),
   (0x42, "远程账户余额更新"),
   (0x43, "离线卡数据同步应答"),
   (0x44, "离线卡数据同步"),
   (0x45, "离线卡数据清除应答"),
   (0x46, "离线卡数据清除"),
   (0x47, "离线卡数据查询应答"),
   (0x48, "离线卡数据查询"),
   (0x51, "工作参数设置应答"),
   (0x52, "工作参数设置"),
   (0x55, "对时设置应答"),
   (0x56, "对时设置"),
   (0x57, "计费模型应答"),
   (0x58, "计费模型设置"),
   (0x61, "地锁数据上送"),
   (0x62, "遥控地锁升降"),
   (0x63, "充电桩返回数据"),
   (0x91, "远程重启应答"),
   (0x92, "远程重启"),
   (0x93, "远程更新应答"),
   (0x94, "远程更新"),
   (0xA1, "主动申请并充"),
   (0xA2, "确认并充启动"),
   (0xA3, "远程并充启机回复"),
   (0xA4, "远程控制并充启机"),
   (0xF0, "后台下发二维码前缀指令"),
   (0xF1, "桩应答返回下发二维码前缀指令")]

/-- The display name for an unmapped frame-type code. -/
def unknownFrameTypeName : String := "未知帧类型"

/-- The decoder variants of frame_parsers.py, one constructor per class
importable by parser_factory.py (DefaultParser is the fallback; the two
QRCodePrefix classes exist but are never registered). -/
inductive ParserKind where
  | LoginParser | LoginResponseParser
  | HeartbeatParser | HeartbeatResponseParser
  | ReadRealtimeParser | RealtimeDataParser | ChargingHandshakeParser
  | ParameterConfigParser | ChargingEndParser | ErrorMessageParser
  | BMSStopParser | ChargerStopParser | BMSDemandOutputParser | BMSInfoParser
  | ChargingStartRequestParser | ChargingStartConfirmParser
  | RemoteStartReplyParser | RemoteStartCommandParser
  | RemoteStopReplyParser | RemoteStopCommandParser
  | TransactionRecordParser | TransactionConfirmParser
  | BalanceUpdateRequestParser | BalanceUpdateResponseParser
  | OfflineCardSyncParser | OfflineCardSyncResponseParser
  | OfflineCardDeleteParser | OfflineCardDeleteResponseParser
  | OfflineCardQueryParser | OfflineCardQueryResponseParser
  | WorkParameterSetResponseParser | WorkParameterSetParser
  | TimeSyncResponseParser | TimeSyncParser
  | BillingModelResponseParser | BillingModelSetParser
  | ParkingLockStatusParser | ParkingLockControlParser | ParkingLockResponseParser
  | RemoteRebootResponseParser | RemoteRebootParser
  | RemoteUpdateResponseParser | RemoteUpdateParser
  | ParallelChargingRequestParser | ParallelChargingConfirmParser
  | ParallelChargingReplyParser | ParallelChargingCommandParser
  | QRCodePrefixSetParser | QRCodePrefixSetResponseParser
  | DefaultParser
deriving DecidableEq, Repr

/-- FrameParserFactory._parsers of parser_factory.py: frame-type code to
decoder class, in source order. -/
def factoryParsers : List (Nat × ParserKind) :=
  [(0x01, .LoginParser),
   (0x02, .LoginResponseParser),
   (0x03, .HeartbeatParser),
   (0x04, .HeartbeatResponseParser),
   (0x12, .ReadRealtimeParser),
   (0x13, .RealtimeDataParser),
   (0x15, .ChargingHandshakeParser),
   (0x17, .ParameterConfigParser),
   (0x19, .ChargingEndParser),
   (0x1B, .ErrorMessageParser),
   (0x1D, .BMSStopParser),
   (0x21, .ChargerStopParser),
   (0x23, .BMSDemandOutputParser),
   (0x25, .BMSInfoParser),
   (0x31, .ChargingStartRequestParser),
   (0x32, .ChargingStartConfirmParser),
   (0x33, .RemoteStartReplyParser),
   (0x34, .RemoteStartCommandParser),
   (0x35, .RemoteStopReplyParser),
   (0x36, .RemoteStopCommandParser),
   (0x3B, .TransactionRecordParser),
   (0x40, .TransactionConfirmParser),
   (0x41, .BalanceUpdateResponseParser),
   (0x42, .BalanceUpdateRequestParser),
   (0x43, .OfflineCardSyncResponseParser),
   (0x44, .OfflineCardSyncParser),
   (0x45, .OfflineCardDeleteResponseParser),
   (0x46, .OfflineCardDeleteParser),
   (0x47, .OfflineCardQueryResponseParser),
   (0x48, .OfflineCardQueryParser),
   (0x51, .WorkParameterSetResponseParser),
   (0x52, .WorkParameterSetParser),
   (0x55, .TimeSyncResponseParser),
   (0x56, .TimeSyncParser),
   (0x57, .BillingModelResponseParser),
   (0x58, .BillingModelSetParser),
   (0x61, .ParkingLockStatusParser),
   (0x62, .ParkingLockControlParser),
   (0x63, .ParkingLockResponseParser),
   (0x91, .RemoteRebootResponseParser),
   (0x92, .RemoteRebootParser),
   (0x93, .RemoteUpdateResponseParser),
   (0x94, .RemoteUpdateParser),
   (0xA1, .ParallelChargingRequestParser),
   (0xA2, .ParallelChargingConfirmParser),
   (0xA3, .ParallelChargingReplyParser),
   (0xA4, .ParallelChargingCommandParser)]

/-- Run the parse method of a decoder variant. -/
def runDecoder : ParserKind → List Nat → PM BodyData
  | .LoginParser => LoginParser.parse
  | .LoginResponseParser => LoginResponseParser.parse
  | .HeartbeatParser => HeartbeatParser.parse
  | .HeartbeatResponseParser => HeartbeatResponseParser.parse
  | .ReadRealtimeParser => ReadRealtimeParser.parse
  | .RealtimeDataParser => RealtimeDataParser.parse
  | .ChargingHandshakeParser => ChargingHandshakeParser.parse
  | .ParameterConfigParser => ParameterConfigParser.parse
  | .ChargingEndParser => ChargingEndParser.parse
  | .ErrorMessageParser => ErrorMessageParser.parse
  | .BMSStopParser => BMSStopParser.parse
  | .ChargerStopParser => ChargerStopParser.parse
  | .BMSDemandOutputParser => BMSDemandOutputParser.parse
  | .BMSInfoParser => BMSInfoParser.parse
  | .ChargingStartRequestParser => ChargingStartRequestParser.parse
  | .ChargingStartConfirmParser => ChargingStartConfirmParser.parse
  | .RemoteStartReplyParser => RemoteStartReplyParser.parse
  | .RemoteStartCommandParser => RemoteStartCommandParser.parse
  | .RemoteStopReplyParser => RemoteStopReplyParser.parse
  | .RemoteStopCommandParser => RemoteStopCommandParser.parse
  | .TransactionRecordParser => TransactionRecordParser.parse
  | .TransactionConfirmParser => TransactionConfirmParser.parse
  | .BalanceUpdateRequestParser => BalanceUpdateRequestParser.parse
  | .BalanceUpdateResponseParser => BalanceUpdateResponseParser.parse
  | .OfflineCardSyncParser => OfflineCardSyncParser.parse
  | .OfflineCardSyncResponseParser => OfflineCardSyncResponseParser.parse
  | .OfflineCardDeleteParser => OfflineCardDeleteParser.parse
  | .OfflineCardDeleteResponseParser => OfflineCardDeleteResponseParser.parse
  | .OfflineCardQueryParser => OfflineCardQueryParser.parse
  | .OfflineCardQueryResponseParser => OfflineCardQueryResponseParser.parse
  | .WorkParameterSetResponseParser => WorkParameterSetResponseParser.parse
  | .WorkParameterSetParser => WorkParameterSetParser.parse
  | .TimeSyncResponseParser => TimeSyncResponseParser.parse
  | .TimeSyncParser => TimeSyncParser.parse
  | .BillingModelResponseParser => BillingModelResponseParser.parse
  | .BillingModelSetParser => BillingModelSetParser.parse
  | .ParkingLockStatusParser => ParkingLockStatusParser.parse
  | .ParkingLockControlParser => ParkingLockControlParser.parse
  | .ParkingLockResponseParser => ParkingLockResponseParser.parse
  | .RemoteRebootResponseParser => RemoteRebootResponseParser.parse
  | .RemoteRebootParser => RemoteRebootParser.parse
  | .RemoteUpdateResponseParser => RemoteUpdateResponseParser.parse
  | .RemoteUpdateParser => RemoteUpdateParser.parse
  | .ParallelChargingRequestParser => ParallelChargingRequestParser.parse
  | .ParallelChargingConfirmParser => ParallelChargingConfirmParser.parse
  | .ParallelChargingReplyParser => ParallelChargingReplyParser.parse
  | .ParallelChargingCommandParser => ParallelChargingCommandParser.parse
  | .QRCodePrefixSetParser => QRCodePrefixSetParser.parse
  | .QRCodePrefixSetResponseParser => QRCodePrefixSetResponseParser.parse
  | .DefaultParser => DefaultParser.parse

/-- FrameParserFactory.get_parser (named factoryGetParser here): the
registered decoder for a frame-type code, falling back to DefaultParser. -/
def factoryGetParser (frame_type : Nat) : ParserKind :=
  (factoryParsers.lookup frame_type).getD .DefaultParser

/-- The body-decoding step the envelope parser actually runs: look up the
decoder class for the frame type and run its parse on the body bytes. -/
def ykcBodyStep (frame_type : Nat) (body : List Nat) : PM BodyData :=
  runDecoder (factoryGetParser frame_type) body

/-- The body slice used by YKCProtocolParser._parse_structure: the bytes
from offset 6 up to the computed body end, truncated to what is available
(the truncated case also records an error, see parseStructure). -/
def frameBody (data : List Nat) : List Nat :=
  let body_end := 6 + (data.getD 1 0 - 4)
  if data.length < body_end then data.drop 6 else pySlice data 6 body_end

/-- The result dictionary built by YKCProtocolParser._parse_structure; every
key is optional because the Python code inserts keys progressively and may
return early. body_data mirrors the try/except around the body decoder:
some (some d) is a decoded record, some none is the body_data = None written
when the decoder raised, none means the key was never inserted. -/
structure DecodeFields where
  start_flag : Option String := none
  data_length : Option Nat := none
  sequence_number : Option Nat := none
  encrypt_flag : Option String := none
  is_encrypted : Option Bool := none
  frame_type : Option String := none
  frame_type_name : Option String := none
  body_length : Option Nat := none
  body_hex : Option String := none
  crc16_received : Option String := none
  crc16_calculated : Option String := none
  crc16_valid : Option Bool := none
  body_data : Option (Option BodyData) := none

/-- YKCProtocolParser._parse_structure, parameterised by the body-decoding
step bodyStep (the factory boundary; the program instantiates it with
ykcBodyStep). Returns the result fields together with the final
context.errors and context.warnings lists. -/
def parseStructure (bodyStep : Nat → List Nat → PM BodyData) (data : List Nat) :
    DecodeFields × List Diag × List Diag :=
  let start_flag := data.getD 0 0
  let f : DecodeFields := { start_flag := some (hex0x2 start_flag) }
  let errs : List Diag :=
    if start_flag = 0x68 then [] else [.env (.badStart start_flag)]
  let data_len := data.getD 1 0
  let f := { f with data_length := some data_len }
  let expected_total_len := 1 + 1 + data_len + 2
  let errs := errs ++
    (if data.length = expected_total_len then []
     else [.env (.lengthMismatch expected_total_len data.length)])
  if data.length < 4 then (f, errs ++ [.env .shortSeq], []) else
  let f := { f with sequence_number := some (leNat (pySlice data 2 4)) }
  if data.length < 5 then (f, errs ++ [.env .shortEncryptFlag], []) else
  let encrypt_flag := data.getD 4 0
  let f := { f with encrypt_flag := some (hex0x2 encrypt_flag),
                    is_encrypted := some (encrypt_flag == 0x01) }
  if data.length < 6 then (f, errs ++ [.env .shortFrameType], []) else
  let frame_type := data.getD 5 0
  let f := { f with frame_type := some (hex0x2 frame_type),
                    frame_type_name :=
                      some ((FRAME_TYPES.lookup frame_type).getD unknownFrameTypeName) }
  let warns : List Diag :=
    if (FRAME_TYPES.lookup frame_type).isSome then []
    else [.env (.unknownFrameType frame_type)]
  if data_len < 4 then (f, errs ++ [.env (.badDataLength data_len)], warns) else
  let body_len := data_len - 4
  let body_start := 6
  let body_end := body_start + body_len
  let errs := errs ++
    (if data.length < body_end then [.env (.shortBody body_end data.length)]
     else [])
  let body := frameBody data
  let f := { f with body_length := some body.length,
                    body_hex := some (bytesHexUpper body) }
  let crcStep :=
    if body_end + 2 ≤ data.length then
      let crc_received := beNat (pySlice data body_end (body_end + 2))
      let crc_calculated := calculate_crc16 (pySlice data 2 body_end)
      let f := { f with crc16_received := some (hex0x4 crc_received),
                        crc16_calculated := some (hex0x4 crc_calculated) }
      if crc_calculated = crc_received then
        ({ f with crc16_valid := some true }, errs, warns)
      else
        ({ f with crc16_valid := some false }, errs,
         warns ++ [.env (.crcMismatch crc_received crc_calculated)])
    else
      ({ f with crc16_valid := some false }, errs ++ [.env .shortCrc], warns)
  let f := crcStep.1
  let errs := crcStep.2.1
  let warns := crcStep.2.2
  if body.isEmpty then (f, errs, warns)
  else
    let r := bodyStep frame_type body
    let f := { f with body_data := some r.val }
    let errs := errs ++ r.errs.map Diag.body ++
      (if r.val.isSome then [] else [.env .bodyParseFailed])
    (f, errs, warns ++ r.warns.map Diag.body)

/-- The messages of YKCProtocolParser._error_response, one constructor per
early-return site of YKCProtocolParser.parse:

* oddHexLength   报文长度必须是偶数个十六进制字符
* invalidHexStr  十六进制字符串格式错误 (the caught ValueError)
* frameTooShort  报文长度过短 (fewer than 8 bytes)
-/
inductive AbortMsg where
  | oddHexLength
  | invalidHexStr
  | frameTooShort (got : Nat)
deriving DecidableEq, Repr

/-- The record returned by YKCProtocolParser.parse: the status code, the
early-abort message if _error_response was taken (in which case the result
carries no structure fields and no errors/warnings keys), the structure
fields otherwise, and the final context.errors / context.warnings. -/
structure Response where
  code : Nat
  abortMsg : Option AbortMsg
  fields : Option DecodeFields
  errors : List Diag
  warnings : List Diag

/-- An _error_response result. -/
def errResponse (m : AbortMsg) : Response :=
  { code := 500, abortMsg := some m, fields := none, errors := [], warnings := [] }

/-- YKCProtocolParser.parse applied to an already-decoded byte frame: the
length precheck followed by _parse_structure and status finalisation. -/
def parseFrame (bodyStep : Nat → List Nat → PM BodyData) (data : List Nat) :
    Response :=
  if data.length < 8 then errResponse (.frameTooShort data.length)
  else
    let r := parseStructure bodyStep data
    { code := if r.2.1.isEmpty then 200 else 500,
      abortMsg := none,
      fields := some r.1,
      errors := r.2.1,
      warnings := r.2.2 }

/-- YKCProtocolParser.parse on a hexadecimal input string: clean the input,
reject an odd digit count, decode the hex (a ValueError becomes an abort),
then parse the frame. -/
def parseHexInput (bodyStep : Nat → List Nat → PM BodyData) (input : List Char) :
    Response :=
  let cleaned := pyStrip (input.filter (fun c => !(c == ' ') && !(c == '\n')))
  if cleaned.length % 2 ≠ 0 then errResponse .oddHexLength
  else
    match hexDecode cleaned with
    | none => errResponse .invalidHexStr
    | some data => parseFrame bodyStep data

/-- The full decoder as shipped: parseHexInput with the factory dispatch. -/
def ykcParse (input : List Char) : Response := parseHexInput ykcBodyStep input

/-- The errors recorded during one decode call: the context.errors list,
together with the _error_response message when an abort path was taken (the
abort message is the error report of that decode, carried in the msg field
of the Python result). -/
def recordedErrors (r : Response) : List (AbortMsg ⊕ Diag) :=
  (match r.abortMsg with
   | some m => [Sum.inl m]
   | none => []) ++ r.errors.map Sum.inr

/-- C1: for every input hex string (and every body-decoding step), the status
code of the decode result is 500 if and only if at least one error was
recorded during that decode (an _error_response abort records its message;
otherwise the recorded errors are the context.errors list), it is 200
otherwise, and the recorded warnings play no part in this: the status is a
function of the recorded errors alone. -/
theorem c1_status_code_iff_error_recorded
    (P : Nat → List Nat → PM BodyData) (input : List Char) :
    ((parseHexInput P input).code = 200 ∨ (parseHexInput P input).code = 500) ∧
    ((parseHexInput P input).code = 500 ↔
      recordedErrors (parseHexInput P input) ≠ []) := by
  unfold parseHexInput
  dsimp only
  split_ifs with h1
  · simp [recordedErrors, errResponse]
  · cases hd : hexDecode (pyStrip (input.filter (fun c => !(c == ' ') && !(c == '\n')))) with
    | none => simp [recordedErrors, errResponse]
    | some data =>
      unfold parseFrame
      dsimp only
      split_ifs with h2 h3
      · simp [recordedErrors, errResponse]
      · simp_all [recordedErrors, List.isEmpty_iff]
      · have : (parseStructure P data).2.1 ≠ [] := by
          intro hnil; exact h3 (by simp [hnil])
        simp [recordedErrors, this]

/-- Whether a diagnostic is the length-mismatch error 报文长度不匹配. -/
def Diag.isLengthMismatch : Diag → Bool
  | .env (.lengthMismatch _ _) => true
  | _ => false

/-- Diagnostics recorded by body decoders are never the length-mismatch
error (it is an envelope-only message). -/
theorem countP_isLengthMismatch_map_body (l : List BodyDiag) :
    (l.map Diag.body).countP Diag.isLengthMismatch = 0 := by
  induction l with
  | nil => rfl
  | cons a l ih => simp [List.countP_cons, Diag.isLengthMismatch, ih]

set_option maxHeartbeats 2000000 in
/-- C6: for every frame of at least 8 bytes whose total length differs from
1 (start) + 1 (length byte) + declared length + 2 (checksum), decoding
records exactly one length-mismatch error (whatever the body decoders do),
returns a result rather than failing, and the remaining envelope fields
(sequence number, encryption flag, frame type) are still parsed. -/
theorem c6_length_mismatch_exactly_one_error
    (P : Nat → List Nat → PM BodyData) (data : List Nat)
    (h8 : 8 ≤ data.length)
    (hmm : data.length ≠ 1 + 1 + data.getD 1 0 + 2) :
    (parseFrame P data).errors.countP Diag.isLengthMismatch = 1 ∧
    ∃ f, (parseFrame P data).fields = some f ∧
      f.sequence_number.isSome ∧ f.encrypt_flag.isSome ∧ f.frame_type.isSome := by
  unfold parseFrame
  rw [if_neg (show ¬data.length < 8 by omega)]
  unfold parseStructure
  dsimp only
  rw [if_neg hmm,
    if_neg (show ¬data.length < 4 by omega),
    if_neg (show ¬data.length < 5 by omega),
    if_neg (show ¬data.length < 6 by omega)]
  split_ifs <;>
    exact ⟨by simp [List.countP_append, List.countP_cons, Diag.isLengthMismatch,
        countP_isLengthMismatch_map_body],
      _, rfl, by simp, by simp, by simp⟩

set_option maxHeartbeats 2000000 in
/-- C10: for every frame of at least 8 bytes whose declared length is exactly
4 (so the computed body length is 0 and the body slice is empty — with at
least 8 bytes a truncated-to-empty body cannot occur), the body decoding step
is never invoked (the decode result is the same for every body-decoding
step), the result has no body_data field, and no body-decoder diagnostic —
in particular no body-too-short error — is recorded. -/
theorem c10_empty_body_no_decoder
    (P Q : Nat → List Nat → PM BodyData) (data : List Nat)
    (h8 : 8 ≤ data.length) (hlen : data.getD 1 0 = 4) :
    parseFrame P data = parseFrame Q data ∧
    (∃ f, (parseFrame P data).fields = some f ∧ f.body_data = none) ∧
    (∀ b : BodyDiag, Diag.body b ∉ (parseFrame P data).errors) := by
  have hb : frameBody data = [] := by
    unfold frameBody
    dsimp only
    rw [hlen, if_neg (show ¬data.length < 6 + (4 - 4) by omega)]
    simp [pySlice]
  unfold parseFrame
  simp only [if_neg (show ¬data.length < 8 by omega)]
  unfold parseStructure
  dsimp only
  simp only [hlen, hb]
  simp only [if_neg (show ¬data.length < 4 by omega),
    if_neg (show ¬data.length < 5 by omega),
    if_neg (show ¬data.length < 6 by omega),
    if_neg (show ¬(4 : Nat) < 4 by omega),
    if_neg (show ¬data.length < 6 + (4 - 4) by omega)]
  norm_num [pySlice]
  split_ifs <;> simp

/-- An envelope diagnostic is never among body-decoder diagnostics. -/
theorem env_not_mem_map_body (e : EnvDiag) (l : List BodyDiag) :
    Diag.env e ∉ l.map Diag.body := by
  simp

set_option maxHeartbeats 4000000 in
/-- C2: consider any frame of at least 8 bytes with a non-negative computed
body length. If the frame is long enough to contain the two checksum bytes
and the received checksum (read big-endian) differs from the value computed
over the bytes from the sequence number through the end of the body, then
the mismatch is recorded as a warning, no checksum diagnostic lands in the
errors, the envelope fields and the body decode are still present in the
result, and crc16_valid is false. If instead the frame is too short to read
the checksum bytes, the error 报文过短,无法读取CRC16校验码 is recorded and
crc16_valid is false. -/
theorem c2_crc_mismatch_is_warning
    (P : Nat → List Nat → PM BodyData) (data : List Nat)
    (h8 : 8 ≤ data.length) (h4 : 4 ≤ data.getD 1 0) :
    ((6 + (data.getD 1 0 - 4) + 2 ≤ data.length) →
      ∀ _ : calculate_crc16 (pySlice data 2 (6 + (data.getD 1 0 - 4))) ≠
        beNat (pySlice data (6 + (data.getD 1 0 - 4)) (6 + (data.getD 1 0 - 4) + 2)),
      Diag.env (.crcMismatch
          (beNat (pySlice data (6 + (data.getD 1 0 - 4)) (6 + (data.getD 1 0 - 4) + 2)))
          (calculate_crc16 (pySlice data 2 (6 + (data.getD 1 0 - 4)))))
        ∈ (parseFrame P data).warnings ∧
      (∀ r c, Diag.env (.crcMismatch r c) ∉ (parseFrame P data).errors) ∧
      Diag.env .shortCrc ∉ (parseFrame P data).errors ∧
      (∃ f, (parseFrame P data).fields = some f ∧
        f.crc16_valid = some false ∧
        f.start_flag.isSome ∧ f.data_length.isSome ∧ f.sequence_number.isSome ∧
        f.encrypt_flag.isSome ∧ f.frame_type.isSome ∧ f.frame_type_name.isSome ∧
        f.body_length.isSome ∧ f.body_hex.isSome ∧
        ((pySlice data 6 (6 + (data.getD 1 0 - 4))).isEmpty = false →
          f.body_data.isSome))) ∧
    ((data.length < 6 + (data.getD 1 0 - 4) + 2) →
      Diag.env .shortCrc ∈ (parseFrame P data).errors ∧
      ∃ f, (parseFrame P data).fields = some f ∧ f.crc16_valid = some false) := by
  constructor
  · intro hroom hmis
    have hfb : frameBody data = pySlice data 6 (6 + (data.getD 1 0 - 4)) := by
      unfold frameBody
      dsimp only
      rw [if_neg (show ¬data.length < 6 + (data.getD 1 0 - 4) by omega)]
    unfold parseFrame
    simp only [if_neg (show ¬data.length < 8 by omega)]
    unfold parseStructure
    dsimp only
    simp only [hfb]
    simp only [if_neg (show ¬data.length < 4 by omega),
      if_neg (show ¬data.length < 5 by omega),
      if_neg (show ¬data.length < 6 by omega),
      if_neg (show ¬data.getD 1 0 < 4 by omega),
      if_neg (show ¬data.length < 6 + (data.getD 1 0 - 4) by omega),
      if_pos hroom, if_neg hmis]
    split_ifs <;>
      refine ⟨by simp, fun r c => by simp [env_not_mem_map_body],
        by simp [env_not_mem_map_body], _, rfl, by simp, by simp, by simp,
        by simp, by simp, by simp, by simp, by simp, by simp,
        by simp_all [List.getD]⟩
  · intro hnoroom
    unfold parseFrame
    simp only [if_neg (show ¬data.length < 8 by omega)]
    unfold parseStructure
    dsimp only
    simp only [if_neg (show ¬data.length < 4 by omega),
      if_neg (show ¬data.length < 5 by omega),
      if_neg (show ¬data.length < 6 by omega),
      if_neg (show ¬data.getD 1 0 < 4 by omega),
      if_neg (show ¬(6 + (data.getD 1 0 - 4) + 2 ≤ data.length) by omega)]
    split_ifs <;>
      refine ⟨by simp, _, rfl, by simp⟩

/-- A successful association-list lookup names a pair of the list. -/
theorem lookup_mem {β : Type} {l : List (Nat × β)} {k : Nat} {v : β}
    (h : l.lookup k = some v) : (k, v) ∈ l := by
  induction l with
  | nil => simp [List.lookup] at h
  | cons p l ih =>
    obtain ⟨pk, pv⟩ := p
    rw [List.lookup] at h
    rcases hb : (k == pk) with _ | _
    · simp only [hb] at h
      exact List.mem_cons_of_mem _ (ih h)
    · simp only [hb] at h
      obtain rfl : pv = v := by injection h
      obtain rfl : k = pk := by simpa using hb
      exact List.mem_cons_self _ _

/-- Every frame-type code registered in the factory also has a display name
in FRAME_TYPES. -/
theorem factory_codes_have_names :
    ∀ p ∈ factoryParsers, (FRAME_TYPES.lookup p.1).isSome = true := by
  decide

/-- A frame-type code with no display name has no registered decoder. -/
theorem factory_lookup_none_of_no_name {c : Nat}
    (h : FRAME_TYPES.lookup c = none) : factoryParsers.lookup c = none := by
  cases hf : factoryParsers.lookup c with
  | none => rfl
  | some v =>
    have hx := factory_codes_have_names _ (lookup_mem hf)
    rw [show ((c, v).1 : Nat) = c from rfl, h] at hx
    simp at hx

set_option maxHeartbeats 2000000 in
/-- C4: for every frame of at least 8 bytes (with a non-negative computed
body length) whose frame-type code has no entry in FRAME_TYPES, decoding
records the unknown-frame-type warning and no unknown-frame-type error, the
frame_type_name field is the unknown marker 未知帧类型, and a non-empty body
is decoded by DefaultParser, whose output is the raw body bytes as an
uppercase hex string plus the not-yet-implemented marker. -/
theorem c4_unknown_frame_type_warning_and_default
    (data : List Nat) (h8 : 8 ≤ data.length) (h4 : 4 ≤ data.getD 1 0)
    (hunk : FRAME_TYPES.lookup (data.getD 5 0) = none) :
    Diag.env (.unknownFrameType (data.getD 5 0)) ∈ (parseFrame ykcBodyStep data).warnings ∧
    (∀ c, Diag.env (.unknownFrameType c) ∉ (parseFrame ykcBodyStep data).errors) ∧
    ∃ f, (parseFrame ykcBodyStep data).fields = some f ∧
      f.frame_type_name = some unknownFrameTypeName ∧
      (frameBody data ≠ [] →
        f.body_data = some (some
          [("raw", Val.str (bytesHexUpper (frameBody data))),
           ("note", Val.str "该帧类型暂未实现详细解析")])) := by
  have hstep : ykcBodyStep (data.getD 5 0) (frameBody data) =
      DefaultParser.parse (frameBody data) := by
    unfold ykcBodyStep factoryGetParser
    rw [factory_lookup_none_of_no_name hunk]
    rfl
  have hname : ¬((none : Option String).isSome = true) := by simp
  have hval : (DefaultParser.parse (frameBody data)).val.isSome = true := by
    simp [DefaultParser.parse, PM.pure]
  unfold parseFrame
  simp only [if_neg (show ¬data.length < 8 by omega)]
  unfold parseStructure
  dsimp only
  simp only [if_neg (show ¬data.length < 4 by omega),
    if_neg (show ¬data.length < 5 by omega),
    if_neg (show ¬data.length < 6 by omega),
    if_neg (show ¬data.getD 1 0 < 4 by omega),
    if_neg hname, hunk, hstep, if_pos hval]
  split_ifs <;>
    refine ⟨by simp [DefaultParser.parse, PM.pure],
      fun c => by simp [DefaultParser.parse, PM.pure], _, rfl, by simp,
      by simp_all [DefaultParser.parse, PM.pure]⟩

set_option maxHeartbeats 4000000 in
/-- C9: the codes 0x05, 0x06, 0x09, 0x0A, 0xF0, 0xF1 all have display names
in FRAME_TYPES but no entry in the factory dispatch table; every code in the
dispatch table has a display name (so the set of named codes strictly
contains the set of codes with dedicated decoders); and decoding a frame of
one of these types emits no unknown-frame-type warning while the body is
nevertheless decoded by DefaultParser (raw hex plus the not-yet-implemented
marker). -/
theorem c9_named_codes_without_decoder
    (data : List Nat) (h8 : 8 ≤ data.length) (h4 : 4 ≤ data.getD 1 0)
    (hmem : data.getD 5 0 ∈ ([0x05, 0x06, 0x09, 0x0A, 0xF0, 0xF1] : List Nat)) :
    (∀ c ∈ ([0x05, 0x06, 0x09, 0x0A, 0xF0, 0xF1] : List Nat),
      (FRAME_TYPES.lookup c).isSome = true ∧ factoryParsers.lookup c = none) ∧
    (∀ c : Nat, (factoryParsers.lookup c).isSome = true →
      (FRAME_TYPES.lookup c).isSome = true) ∧
    ((∀ c, Diag.env (.unknownFrameType c) ∉ (parseFrame ykcBodyStep data).warnings) ∧
      ∃ f, (parseFrame ykcBodyStep data).fields = some f ∧
        (frameBody data ≠ [] →
          f.body_data = some (some
            [("raw", Val.str (bytesHexUpper (frameBody data))),
             ("note", Val.str "该帧类型暂未实现详细解析")]))) := by
  refine ⟨by decide, ?_, ?_⟩
  · intro c hc
    obtain ⟨v, hv⟩ := Option.isSome_iff_exists.mp hc
    exact factory_codes_have_names (c, v) (lookup_mem hv)
  · have hname : (FRAME_TYPES.lookup (data.getD 5 0)).isSome = true := by
      simp only [List.mem_cons, List.not_mem_nil, or_false] at hmem
      rcases hmem with h | h | h | h | h | h <;> rw [h] <;> decide
    have hfact : factoryParsers.lookup (data.getD 5 0) = none := by
      simp only [List.mem_cons, List.not_mem_nil, or_false] at hmem
      rcases hmem with h | h | h | h | h | h <;> rw [h] <;> decide
    have hstep : ykcBodyStep (data.getD 5 0) (frameBody data) =
        DefaultParser.parse (frameBody data) := by
      unfold ykcBodyStep factoryGetParser
      rw [hfact]
      rfl
    have hval : (DefaultParser.parse (frameBody data)).val.isSome = true := by
      simp [DefaultParser.parse, PM.pure]
    unfold parseFrame
    simp only [if_neg (show ¬data.length < 8 by omega)]
    unfold parseStructure
    dsimp only
    simp only [if_neg (show ¬data.length < 4 by omega),
      if_neg (show ¬data.length < 5 by omega),
      if_neg (show ¬data.length < 6 by omega),
      if_neg (show ¬data.getD 1 0 < 4 by omega),
      if_pos hname, hstep, if_pos hval]
    split_ifs <;>
      refine ⟨fun c => by simp [DefaultParser.parse, PM.pure], _, rfl,
        by simp_all [DefaultParser.parse, PM.pure]⟩

/-- C7: on any 7-byte input the packed-timestamp decoder reads milliseconds
as the two first bytes little-endian, the minute from the low 6 bits of byte
2, the hour from the low 5 bits of byte 3, the day from the low 5 bits of
byte 4, the month from the low 4 bits of byte 5, and the year as 2000 plus
the low 7 bits of byte 6, rendered as the zero-padded string
YYYY-MM-DD HH:MM:SS.mmm (seconds and milliseconds split out of the
millisecond word); in particular the bytes packing 2024-03-15 14:30:00.500
decode to exactly that string. -/
theorem c7_cp56time2a_bit_layout (t : List Nat) (h7 : t.length = 7) :
    parse_cp56time2a t =
      padNat 4 (2000 + t.getD 6 0 % 128) ++ "-" ++ padNat 2 (t.getD 5 0 % 16) ++
      "-" ++ padNat 2 (t.getD 4 0 % 32) ++ " " ++ padNat 2 (t.getD 3 0 % 32) ++
      ":" ++ padNat 2 (t.getD 2 0 % 64) ++ ":" ++
      padNat 2 ((t.getD 0 0 + 256 * t.getD 1 0) / 1000) ++ "." ++
      padNat 3 ((t.getD 0 0 + 256 * t.getD 1 0) % 1000) ∧
    parse_cp56time2a [0xF4, 0x01, 30, 14, 15, 3, 24] = "2024-03-15 14:30:00.500" := by
  have hm : ∀ (x n : Nat), x &&& (2 ^ n - 1) = x % 2 ^ n := fun x n =>
    Nat.and_pow_two_sub_one_eq_mod x n
  have h64 : ∀ x : Nat, x &&& 63 = x % 64 := fun x => by
    have := hm x 6; norm_num at this; exact this
  have h32 : ∀ x : Nat, x &&& 31 = x % 32 := fun x => by
    have := hm x 5; norm_num at this; exact this
  have h16 : ∀ x : Nat, x &&& 15 = x % 16 := fun x => by
    have := hm x 4; norm_num at this; exact this
  have h128 : ∀ x : Nat, x &&& 127 = x % 128 := fun x => by
    have := hm x 7; norm_num at this; exact this
  refine ⟨?_, by rfl⟩
  rcases t with _ | ⟨b0, t⟩; · simp at h7
  rcases t with _ | ⟨b1, t⟩; · simp at h7
  rcases t with _ | ⟨b2, t⟩; · simp at h7
  rcases t with _ | ⟨b3, t⟩; · simp at h7
  rcases t with _ | ⟨b4, t⟩; · simp at h7
  rcases t with _ | ⟨b5, t⟩; · simp at h7
  rcases t with _ | ⟨b6, t⟩; · simp at h7
  simp only [parse_cp56time2a, pySlice, leNat, List.getD, List.drop, List.take,
    h64, h32, h16, h128]
  norm_num

/-- A two-byte in-range slice is the pair of bytes at its offsets. -/
theorem pySlice_pair (l : List Nat) (i : Nat) (h : i + 1 < l.length) :
    pySlice l i (i + 2) = [l.getD i 0, l.getD (i + 1) 0] := by
  unfold pySlice
  rw [show i + 2 - i = 2 by omega,
    List.drop_eq_getElem_cons (show i < l.length by omega),
    List.drop_eq_getElem_cons (show i + 1 < l.length by omega),
    List.take_succ_cons, List.take_succ_cons, List.take_zero]
  simp only [List.getD, List.get?_eq_getElem?,
    List.getElem?_eq_getElem (show i < l.length by omega),
    List.getElem?_eq_getElem h, Option.getD_some]

set_option maxHeartbeats 1000000 in
/-- C8: on any body of at least the declared 58 bytes, the real-time-data
decoder reads output_voltage as the 2-byte little-endian word at offsets
27..28 divided by exactly 10, so the boundary raw values are exact: raw
0xFFFF gives exactly 6553.5 and raw 0 gives exactly 0; and the offset field
cable_temperature maps raw byte 0 to exactly 0 - 50 = -50. -/
theorem c8_scaled_integer_boundary_exact (body : List Nat)
    (h : 58 ≤ body.length) :
    ∃ d, (RealtimeDataParser.parse body).val = some d ∧
      List.lookup ("output_voltage") d =
        some (.rat ((leNat (pySlice body 27 29) : ℚ) / 10)) ∧
      (body.getD 27 0 = 0xFF → body.getD 28 0 = 0xFF →
        List.lookup ("output_voltage") d = some (.rat (13107 / 2))) ∧
      (body.getD 27 0 = 0 → body.getD 28 0 = 0 →
        List.lookup ("output_voltage") d = some (.rat 0)) ∧
      (body.getD 31 0 = 0 →
        List.lookup ("cable_temperature") d = some (.int (-50))) := by
  have hsl : pySlice body 27 29 = [body.getD 27 0, body.getD 28 0] := by
    have := pySlice_pair body 27 (by omega)
    simpa using this
  simp only [RealtimeDataParser.parse, RealtimeDataParser.expected_min_length,
    validate_length, if_neg (show ¬body.length < 58 by omega)]
  simp only [PM.bind_eq, PM.pure_eq, PM.bind_pure_left, bind, pure,
    PM.getByte_lt _ _ (show 23 < body.length by omega),
    PM.getByte_lt _ _ (show 24 < body.length by omega),
    PM.getByte_lt _ _ (show 25 < body.length by omega),
    PM.getByte_lt _ _ (show 26 < body.length by omega),
    PM.getByte_lt _ _ (show 31 < body.length by omega),
    PM.getByte_lt _ _ (show 40 < body.length by omega),
    PM.getByte_lt _ _ (show 41 < body.length by omega)]
  refine ⟨_, rfl, ?_, ?_, ?_, ?_⟩
  · simp [List.lookup]
  · intro h27 h28
    simp only [List.getD, List.get?_eq_getElem?] at h27 h28
    simp [List.lookup, hsl, leNat, h27, h28, List.getD]
    norm_num
  · intro h27 h28
    simp only [List.getD, List.get?_eq_getElem?] at h27 h28
    simp [List.lookup, hsl, leNat, h27, h28, List.getD]
  · intro h31
    simp only [List.getD, List.get?_eq_getElem?] at h31
    simp [List.lookup, h31, List.getD]

/-- C3 (code-bug evidence): LoginParser declares the minimum body length 28,
yet its parse reads the operator byte at offset 29, so a 28-byte body meets
the declared minimum, records no body-too-short error, and still aborts in
an out-of-bounds read (val = none is the Python IndexError at body[29],
which the envelope parser catches as the error 消息体解析失败). A 30-byte
body is what the layout actually needs, and then the decoder completes. -/
theorem c3_login_reads_past_declared_minimum :
    LoginParser.expected_min_length ≤ (List.replicate 28 0 : List Nat).length ∧
    (LoginParser.parse (List.replicate 28 0)).errs = [] ∧
    (LoginParser.parse (List.replicate 28 0)).warns = [] ∧
    (LoginParser.parse (List.replicate 28 0)).val = none ∧
    (LoginParser.parse (List.replicate 30 0)).val.isSome = true := by
  exact ⟨by decide, rfl, rfl, rfl, rfl⟩

/-- C5 (counterexample to the claim as stated): the offline-card sync body
01 02 03 04 05 06 07 02 declares 2 records but carries none; the decoder
records the declared-vs-available mismatch 离线卡数据长度不足 in errors, not
in warnings (the warnings list stays empty), while still clamping to zero
parsed records. -/
theorem c5_mismatch_is_error_not_warning :
    (OfflineCardSyncParser.parse [1, 2, 3, 4, 5, 6, 7, 2]).warns = [] ∧
    (OfflineCardSyncParser.parse [1, 2, 3, 4, 5, 6, 7, 2]).errs =
      [.cardDataInsufficient 40 8] ∧
    (OfflineCardSyncParser.parse [1, 2, 3, 4, 5, 6, 7, 2]).val = some
      [("pile_code", .str ("01020304050607")),
       ("card_count", .nat 2),
       ("cards", .recordList [])] := by
  exact ⟨rfl, rfl, rfl⟩

set_option maxHeartbeats 2000000 in
/-- C5 (amended): for each variable-length offline-card decoder (sync 0x44,
delete 0x46, query 0x48), when the declared record count implies more bytes
than the body holds, the decoder clamps the parsed records to the records
fully available — the record list is built over
range (min declared available) — and records an error (not a warning) about
the declared-vs-available mismatch; the warnings list is untouched. -/
theorem c5_amended_clamp_and_error_recorded :
    (∀ body : List Nat, 8 ≤ body.length →
      body.length < 8 + body.getD 7 0 * 16 →
      (OfflineCardSyncParser.parse body).errs =
        [.cardDataInsufficient (8 + body.getD 7 0 * 16) body.length] ∧
      (OfflineCardSyncParser.parse body).warns = [] ∧
      (OfflineCardSyncParser.parse body).val = some
        [("pile_code", Val.str (bcd_to_str (pySlice body 0 7))),
         ("card_count", Val.nat (body.getD 7 0)),
         ("cards", Val.recordList
           ((List.range (min (body.getD 7 0) ((body.length - 8) / 16))).map
             (fun i =>
               [("logical_card_number",
                 Val.str (bcd_to_str (pySlice body (8 + 16 * i) (8 + 16 * i + 8)))),
                ("physical_card_number",
                 Val.str (hex16 (leNat (pySlice body (8 + 16 * i + 8) (8 + 16 * i + 16)))))])))]) ∧
    (∀ body : List Nat, 8 ≤ body.length →
      body.length < 8 + body.getD 7 0 * 8 →
      (OfflineCardDeleteParser.parse body).errs =
        [.cardDataInsufficient (8 + body.getD 7 0 * 8) body.length] ∧
      (OfflineCardDeleteParser.parse body).warns = [] ∧
      (OfflineCardDeleteParser.parse body).val = some
        [("pile_code", Val.str (bcd_to_str (pySlice body 0 7))),
         ("card_count", Val.nat (body.getD 7 0)),
         ("card_numbers", Val.strList
           ((List.range (min (body.getD 7 0) ((body.length - 8) / 8))).map
             (fun i => hex16 (leNat (pySlice body (8 + 8 * i) (8 + 8 * i + 8))))))]) ∧
    (∀ body : List Nat, 8 ≤ body.length →
      body.length < 8 + body.getD 7 0 * 8 →
      (OfflineCardQueryParser.parse body).errs =
        [.cardDataInsufficient (8 + body.getD 7 0 * 8) body.length] ∧
      (OfflineCardQueryParser.parse body).warns = [] ∧
      (OfflineCardQueryParser.parse body).val = some
        [("pile_code", Val.str (bcd_to_str (pySlice body 0 7))),
         ("card_count", Val.nat (body.getD 7 0)),
         ("card_numbers", Val.strList
           ((List.range (min (body.getD 7 0) ((body.length - 8) / 8))).map
             (fun i => hex16 (leNat (pySlice body (8 + 8 * i) (8 + 8 * i + 8))))))]) := by
  refine ⟨fun body h8 hshort => ?_, fun body h8 hshort => ?_,
    fun body h8 hshort => ?_⟩
  · simp only [OfflineCardSyncParser.parse, OfflineCardSyncParser.expected_min_length,
      validate_length, if_neg (show ¬body.length < 8 by omega)]
    simp only [PM.bind_eq, PM.pure_eq, PM.bind_pure_left, bind, pure, PM.err,
      PM.getByte_lt _ _ (show 7 < body.length by omega), if_pos hshort]
    exact ⟨by simp [PM.pure, List.getD], by simp [PM.pure],
      by simp [PM.pure, List.getD]⟩
  · simp only [OfflineCardDeleteParser.parse, OfflineCardDeleteParser.expected_min_length,
      validate_length, if_neg (show ¬body.length < 8 by omega)]
    simp only [PM.bind_eq, PM.pure_eq, PM.bind_pure_left, bind, pure, PM.err,
      PM.getByte_lt _ _ (show 7 < body.length by omega), if_pos hshort]
    exact ⟨by simp [PM.pure, List.getD], by simp [PM.pure],
      by simp [PM.pure, List.getD]⟩
  · simp only [OfflineCardQueryParser.parse, OfflineCardQueryParser.expected_min_length,
      validate_length, if_neg (show ¬body.length < 8 by omega)]
    simp only [PM.bind_eq, PM.pure_eq, PM.bind_pure_left, bind, pure, PM.err,
      PM.getByte_lt _ _ (show 7 < body.length by omega), if_pos hshort]
    exact ⟨by simp [PM.pure, List.getD], by simp [PM.pure],
      by simp [PM.pure, List.getD]⟩

set_option maxRecDepth 8000 in
/-- Witness for C2: on the concrete frame 68 05 00 00 00 03 AA 00 00 the
received checksum 0x0000 differs from the computed one, and the mismatch
shows up in the warnings; on 68 06 00 00 00 03 AA BB the checksum bytes are
missing and the short-checksum error is recorded. -/
theorem c2_crc_mismatch_witness :
    Diag.env (.crcMismatch
        (beNat (pySlice ([0x68, 0x05, 0, 0, 0, 0x03, 0xAA, 0, 0] : List Nat) 7 9))
        (calculate_crc16 (pySlice ([0x68, 0x05, 0, 0, 0, 0x03, 0xAA, 0, 0] : List Nat) 2 7)))
      ∈ (parseFrame ykcBodyStep [0x68, 0x05, 0, 0, 0, 0x03, 0xAA, 0, 0]).warnings ∧
    Diag.env .shortCrc
      ∈ (parseFrame ykcBodyStep [0x68, 0x06, 0, 0, 0, 0x03, 0xAA, 0xBB]).errors :=
  ⟨((c2_crc_mismatch_is_warning ykcBodyStep [0x68, 0x05, 0, 0, 0, 0x03, 0xAA, 0, 0]
      (by decide) (by decide)).1 (by decide) (by decide)).1,
   ((c2_crc_mismatch_is_warning ykcBodyStep [0x68, 0x06, 0, 0, 0, 0x03, 0xAA, 0xBB]
      (by decide) (by decide)).2 (by decide)).1⟩

/-- Witness for C4: the frame 68 05 00 00 00 99 AB 00 00 carries the
unregistered type 0x99; the unknown-frame-type warning is recorded, the
name field is the unknown marker, and the one-byte body decodes through
DefaultParser. -/
theorem c4_unknown_frame_type_witness :
    Diag.env (.unknownFrameType 0x99)
      ∈ (parseFrame ykcBodyStep [0x68, 0x05, 0, 0, 0, 0x99, 0xAB, 0, 0]).warnings ∧
    ∃ f, (parseFrame ykcBodyStep [0x68, 0x05, 0, 0, 0, 0x99, 0xAB, 0, 0]).fields = some f ∧
      f.frame_type_name = some unknownFrameTypeName ∧
      (frameBody [0x68, 0x05, 0, 0, 0, 0x99, 0xAB, 0, 0] ≠ [] →
        f.body_data = some (some
          [("raw", Val.str (bytesHexUpper (frameBody [0x68, 0x05, 0, 0, 0, 0x99, 0xAB, 0, 0]))),
           ("note", Val.str ("该帧类型暂未实现详细解析"))])) :=
  ⟨(c4_unknown_frame_type_warning_and_default [0x68, 0x05, 0, 0, 0, 0x99, 0xAB, 0, 0]
      (by decide) (by decide) (by decide)).1,
   (c4_unknown_frame_type_warning_and_default [0x68, 0x05, 0, 0, 0, 0x99, 0xAB, 0, 0]
      (by decide) (by decide) (by decide)).2.2⟩

/-- Witness for C5 (amended): the sync body 01..07 02 declares two records
and carries none; the mismatch is recorded as the error and the warnings
stay empty. -/
theorem c5_amended_witness :
    (OfflineCardSyncParser.parse [1, 2, 3, 4, 5, 6, 7, 2]).errs =
      [.cardDataInsufficient 40 8] ∧
    (OfflineCardSyncParser.parse [1, 2, 3, 4, 5, 6, 7, 2]).warns = [] := by
  have h := c5_amended_clamp_and_error_recorded.1 [1, 2, 3, 4, 5, 6, 7, 2]
    (by decide) (by decide)
  exact ⟨h.1, h.2.1⟩

/-- Witness for C6: the frame 68 09 00 00 00 03 01 02 declares 9 body-plus-
trailer bytes but is 8 bytes long; exactly one length-mismatch error is
recorded and the envelope fields are still parsed. -/
theorem c6_length_mismatch_witness :
    (parseFrame ykcBodyStep [0x68, 0x09, 0, 0, 0, 0x03, 1, 2]).errors.countP
      Diag.isLengthMismatch = 1 ∧
    ∃ f, (parseFrame ykcBodyStep [0x68, 0x09, 0, 0, 0, 0x03, 1, 2]).fields = some f ∧
      f.sequence_number.isSome ∧ f.encrypt_flag.isSome ∧ f.frame_type.isSome :=
  c6_length_mismatch_exactly_one_error ykcBodyStep [0x68, 0x09, 0, 0, 0, 0x03, 1, 2]
    (by decide) (by decide)

/-- Witness for C7: the packed bytes F4 01 1E 0E 0F 03 18 decode to the
canonical string for 2024-03-15 14:30:00.500. -/
theorem c7_cp56time2a_witness :
    parse_cp56time2a [0xF4, 0x01, 30, 14, 15, 3, 24] = "2024-03-15 14:30:00.500" :=
  (c7_cp56time2a_bit_layout [0xF4, 0x01, 30, 14, 15, 3, 24] (by decide)).2

/-- Witness for C8: a 58-byte body with FF FF at the voltage offsets decodes
output_voltage to exactly 6553.5. -/
theorem c8_scaled_boundary_witness :
    ∃ d, (RealtimeDataParser.parse
        (List.replicate 27 0 ++ [0xFF, 0xFF] ++ List.replicate 29 0)).val = some d ∧
      List.lookup ("output_voltage") d = some (.rat (13107 / 2)) := by
  obtain ⟨d, hv, _, hff, _, _⟩ := c8_scaled_integer_boundary_exact
    (List.replicate 27 0 ++ [0xFF, 0xFF] ++ List.replicate 29 0) (by decide)
  exact ⟨d, hv, hff (by decide) (by decide)⟩

/-- Witness for C9: type 0x05 is named but unregistered; decoding the frame
68 05 00 00 00 05 AB 00 00 emits no unknown-frame-type warning and the body
falls through to DefaultParser. -/
theorem c9_named_codes_witness :
    ((FRAME_TYPES.lookup 0x05).isSome = true ∧ factoryParsers.lookup 0x05 = none) ∧
    Diag.env (.unknownFrameType 0x99)
      ∉ (parseFrame ykcBodyStep [0x68, 0x05, 0, 0, 0, 0x05, 0xAB, 0, 0]).warnings ∧
    ∃ f, (parseFrame ykcBodyStep [0x68, 0x05, 0, 0, 0, 0x05, 0xAB, 0, 0]).fields = some f ∧
      (frameBody [0x68, 0x05, 0, 0, 0, 0x05, 0xAB, 0, 0] ≠ [] →
        f.body_data = some (some
          [("raw", Val.str (bytesHexUpper (frameBody [0x68, 0x05, 0, 0, 0, 0x05, 0xAB, 0, 0]))),
           ("note", Val.str ("该帧类型暂未实现详细解析"))])) := by
  have h := c9_named_codes_without_decoder [0x68, 0x05, 0, 0, 0, 0x05, 0xAB, 0, 0]
    (by decide) (by decide) (by decide)
  exact ⟨h.1 0x05 (by decide), h.2.2.1 0x99, h.2.2.2⟩

/-- Witness for C10: the frame 68 04 00 00 00 03 AA BB has declared length 4
and so an empty body; heartbeat (0x03) has a registered decoder with minimum
length 7, yet no body decoder runs and no body diagnostic is recorded. -/
theorem c10_empty_body_witness :
    parseFrame ykcBodyStep [0x68, 0x04, 0, 0, 0, 0x03, 0xAA, 0xBB] =
      parseFrame (fun _ _ => PM.pure []) [0x68, 0x04, 0, 0, 0, 0x03, 0xAA, 0xBB] ∧
    (∃ f, (parseFrame ykcBodyStep [0x68, 0x04, 0, 0, 0, 0x03, 0xAA, 0xBB]).fields = some f ∧
      f.body_data = none) ∧
    (∀ b : BodyDiag,
      Diag.body b ∉ (parseFrame ykcBodyStep [0x68, 0x04, 0, 0, 0, 0x03, 0xAA, 0xBB]).errors) :=
  c10_empty_body_no_decoder ykcBodyStep (fun _ _ => PM.pure [])
    [0x68, 0x04, 0, 0, 0, 0x03, 0xAA, 0xBB] (by decide) (by decide)
